import Mathlib

/-!
Verification development for the yagbe emulator core (scheduler, bus, timer,
CPU).  The definitions below are a shallow embedding of the C sources:

  * sched.c            (src/src/libyagbe/private/sched.c)
  * timer.c            (src/src/libyagbe/private/timer.c)
  * bus.c              (src/unnamed/part_001, second file in the blob: the
                        version whose read/write advance the scheduler)
  * cpu.c              (src/src/libyagbe/private/cpu.c; the file holds two
                        historical implementations, both modelled below)

Machine integers are modelled as Nat together with explicit truncation
helpers mirroring the C conversions (uint8_t, uint16_t, unsigned int,
uintmax_t).  C arrays are modelled as total functions from Nat; every store
through a uint8_t lvalue truncates with u8, as the C conversion does.
-/

namespace Yagbe

/-- Truncation to 8 bits: models storage into a C uint8_t. -/
def u8 (n : Nat) : Nat := n % 256

/-- Truncation to 16 bits: models storage into a C uint16_t. -/
def u16 (n : Nat) : Nat := n % 65536

/-- Truncation to 32 bits: models C unsigned int arithmetic (ILP32/LP64). -/
def u32 (n : Nat) : Nat := n % 4294967296

/-- Truncation to 64 bits: models C uintmax_t arithmetic. -/
def u64 (n : Nat) : Nat := n % 18446744073709551616

/-- Decrement of a uint16_t value with wraparound, as in the C expression
writing sp - 1 back into a uint16_t. -/
def dec16 (n : Nat) : Nat := (n + 65535) % 65536

/-- Decrement of a uint8_t value with wraparound. -/
def dec8 (n : Nat) : Nat := (n + 255) % 256

/-- Reading of a byte as a C int8_t, as in the (int8_t) casts of cpu.c. -/
def s8 (n : Nat) : Int := if n % 256 < 128 then (n % 256 : Int) else (n % 256 : Int) - 256

/-! ## Scheduler (sched.c)

The scheduler state in the C sources is a triple of file-scope statics:
current_timestamp (uintmax_t), heap_size (size_t) and the events array.
-/

/-- A value of the cb_func function-pointer field.  The only callback ever
installed in this codebase is handle_timer_update (timer.c line 38); a zeroed
slot (after memset) holds a null pointer. -/
inductive CbFunc where
  | null
  | handleTimerUpdate
  deriving DecidableEq

/-- Mirror of struct libyagbe_sched_event (sched.h).  The userdata pointer is
always the address of the single timer instance, so it carries no information
and is omitted. -/
structure SchedEvent where
  expiry_time : Nat
  cb_func : CbFunc
  deriving DecidableEq

/-- An all-zero event, the result of the memset calls in sched.c. -/
def zeroEvent : SchedEvent := ⟨0, CbFunc.null⟩

/-- MAX_EVENTS from sched.c line 28. -/
def MAX_EVENTS : Nat := 10

/-- The scheduler's file-scope static state (sched.c lines 33-39). -/
structure Sched where
  current_timestamp : Nat
  heap_size : Nat
  events : Nat → SchedEvent

def get_parent_node (index : Nat) : Nat := (index - 1) / 2

def get_left_child_of_node (index : Nat) : Nat := index * 2 + 1

def get_right_child_of_node (index : Nat) : Nat := index * 2 + 2

/-- Returns the expiry time of the root event (sched.c line 52). -/
def find_min (s : Sched) : Nat := (s.events 0).expiry_time

/-- Store into one slot of the events array. -/
def setEvent (ev : Nat → SchedEvent) (i : Nat) (e : SchedEvent) : Nat → SchedEvent :=
  fun j => if j = i then e else ev j

/-- Modelled from the spec: the SWAP macro of the (missing) private/utility.h
header, used by sched.c; it exchanges two array slots through a temporary. -/
def swapEvents (ev : Nat → SchedEvent) (i j : Nat) : Nat → SchedEvent :=
  fun k => if k = i then ev j else if k = j then ev i else ev k

/-- Mirror of heapify_bottom_top (sched.c lines 98-107).  The C index
arithmetic is on size_t; at index 0 the expression (index - 1) / 2 underflows
and the ensuing array access is out of bounds (undefined behaviour).  Nat
subtraction instead yields parent 0, so the guard compares slot 0 with itself
and the function stops, which is the only behaviour for which the rest of the
program is meaningful. -/
def heapify_bottom_top (ev : Nat → SchedEvent) (index : Nat) : Nat → SchedEvent :=
  if h : (ev (get_parent_node index)).expiry_time > (ev index).expiry_time then
    heapify_bottom_top (swapEvents ev (get_parent_node index) index) (get_parent_node index)
  else
    ev
termination_by index
decreasing_by
  rcases Nat.eq_zero_or_pos index with h0 | h0
  · exact absurd h (by simp [h0, get_parent_node])
  · have h1 : (index - 1) / 2 ≤ index - 1 := Nat.div_le_self _ _
    simp only [get_parent_node]
    omega

/-- The value of the local variable smallest_node at the end of the two guard
conditionals of heapify_top_bottom (sched.c lines 61-71).  Note that the first
conditional tests smallest_node (that is, parent_node) against heap_size
instead of left_node, exactly as the C source does. -/
def smallest_node (heap_size : Nat) (ev : Nat → SchedEvent) (parent_node : Nat) : Nat :=
  let left_node := get_left_child_of_node parent_node
  let right_node := get_right_child_of_node parent_node
  let s1 := if parent_node < heap_size ∧
      (ev left_node).expiry_time < (ev parent_node).expiry_time then left_node
    else parent_node
  if right_node < heap_size ∧ (ev right_node).expiry_time < (ev s1).expiry_time then right_node
  else s1

lemma smallest_node_cases (hs : Nat) (ev : Nat → SchedEvent) (p : Nat) :
    smallest_node hs ev p = p ∨
      (p < hs ∧ (smallest_node hs ev p = 2 * p + 1 ∨ smallest_node hs ev p = 2 * p + 2)) := by
  simp only [smallest_node, get_left_child_of_node, get_right_child_of_node]
  by_cases h1 : p < hs ∧ (ev (p * 2 + 1)).expiry_time < (ev p).expiry_time
  · simp only [if_pos h1]
    by_cases h2 : p * 2 + 2 < hs ∧ (ev (p * 2 + 2)).expiry_time < (ev (p * 2 + 1)).expiry_time
    · simp only [if_pos h2]
      exact Or.inr ⟨h1.1, Or.inr (by omega)⟩
    · simp only [if_neg h2]
      exact Or.inr ⟨h1.1, Or.inl (by omega)⟩
  · simp only [if_neg h1]
    by_cases h2 : p * 2 + 2 < hs ∧ (ev (p * 2 + 2)).expiry_time < (ev p).expiry_time
    · simp only [if_pos h2]
      have hp : p < hs := by have := h2.1; omega
      exact Or.inr ⟨hp, Or.inr (by omega)⟩
    · simp only [if_neg h2]
      exact Or.inl trivial

/-- Mirror of heapify_top_bottom (sched.c lines 54-79). -/
def heapify_top_bottom (heap_size : Nat) (ev : Nat → SchedEvent) (parent_node : Nat) :
    Nat → SchedEvent :=
  if h : smallest_node heap_size ev parent_node ≠ parent_node then
    heapify_top_bottom heap_size
      (swapEvents ev (smallest_node heap_size ev parent_node) parent_node)
      (smallest_node heap_size ev parent_node)
  else
    ev
termination_by heap_size + 2 - parent_node
decreasing_by
  rcases smallest_node_cases heap_size ev parent_node with hc | hc
  · exact absurd hc h
  · omega

/-- Mirror of extract_min (sched.c lines 82-96).  The assert(heap_size != 0)
holds at the only call site, inside libyagbe_sched_step. -/
def extract_min (s : Sched) : SchedEvent × Sched :=
  let event := s.events 0
  let hs := s.heap_size - 1
  let ev1 := if hs = 0 then setEvent s.events 0 zeroEvent else setEvent s.events 0 (s.events hs)
  (event, { s with heap_size := hs, events := heapify_top_bottom hs ev1 0 })

/-- The condition of the assert in libyagbe_sched_insert (sched.c line 110):
a debug build aborts exactly when heap_size equals MAX_EVENTS - 1. -/
def sched_insert_asserts (s : Sched) : Prop := s.heap_size = MAX_EVENTS - 1

instance (s : Sched) : Decidable (sched_insert_asserts s) := by
  unfold sched_insert_asserts; infer_instance

/-- Mirror of libyagbe_sched_insert (sched.c lines 109-116), minus the assert,
which is modelled by sched_insert_asserts.  The inserted copy's expiry_time
(an unsigned int) has the current timestamp added to it. -/
def libyagbe_sched_insert (s : Sched) (event : SchedEvent) : Sched :=
  let ev1 := setEvent s.events s.heap_size
    { event with expiry_time := u32 (event.expiry_time + s.current_timestamp) }
  { s with heap_size := s.heap_size + 1, events := heapify_bottom_top ev1 s.heap_size }

/-- Mirror of libyagbe_sched_reset (sched.c lines 118-122). -/
def libyagbe_sched_reset : Sched := ⟨0, 0, fun _ => zeroEvent⟩

/-! ## System state (bus.h, gb.h and peripherals)

The bus structure follows struct libyagbe_bus (bus.h).  The scheduler statics
and the stream of bytes written through putchar are bundled alongside it into
one System record, since the scheduler callbacks reach back into the bus. -/

/-- Modelled from the spec: struct libyagbe_timer of the missing
public/libyagbe/timer.h header; the spec describes a control register
(enable bit + 2-bit clock select), a counter register and a reload register,
matching the tac/tima/tma field accesses in timer.c and bus.c. -/
structure libyagbe_timer where
  tac : Nat
  tima : Nat
  tma : Nat

/-- Mirror of struct libyagbe_apu (apu.h). -/
structure libyagbe_apu where
  nr50 : Nat
  nr51 : Nat
  nr52 : Nat

/-- Mirror of struct libyagbe_cart (cart.h): a flat read-only byte array. -/
structure libyagbe_cart where
  data : Nat → Nat

/-- Mirror of struct libyagbe_ppu (ppu.h). -/
structure libyagbe_ppu where
  lcdc : Nat
  scy : Nat
  scx : Nat
  ly : Nat
  bgp : Nat
  vram : Nat → Nat

/-- Mirror of struct libyagbe_bus (bus.h). -/
structure libyagbe_bus where
  apu : libyagbe_apu
  cart : libyagbe_cart
  timer : libyagbe_timer
  ppu : libyagbe_ppu
  wram : Nat → Nat
  hram : Nat → Nat
  interrupt_flag : Nat
  interrupt_enable : Nat

/-- The complete mutable state of the emulation: the bus (which embeds all
peripherals), the scheduler statics, and the bytes emitted through putchar on
serial-data writes. -/
structure System where
  bus : libyagbe_bus
  sched : Sched
  serial_out : List Nat

/-! ## Timer (timer.c) -/

/-- The timing table of timer.c line 26. -/
def timing (k : Nat) : Nat :=
  match k with
  | 0 => 1024
  | 1 => 16
  | 2 => 64
  | _ => 256

/-- TAC_ENABLED, timer.c line 27. -/
def TAC_ENABLED : Nat := 4

/-- FLAG_TIMER, timer.c line 31. -/
def FLAG_TIMER : Nat := 4

/-- Mirror of handle_timer_update (timer.c lines 33-52).  The event is built
from the tac value at entry; on counter wrap the reload and the interrupt-flag
update happen in this same invocation; the event is reinserted only while the
enable bit is set. -/
def handle_timer_update (sys : System) : System :=
  let timer := sys.bus.timer
  let event : SchedEvent := ⟨timing (timer.tac &&& 0x03), CbFunc.handleTimerUpdate⟩
  let sys1 :=
    if timer.tima = 0xFF then
      { sys with
        bus := { sys.bus with
          timer := { timer with tima := u8 timer.tma },
          interrupt_flag := u8 (sys.bus.interrupt_flag ||| FLAG_TIMER) } }
    else
      { sys with
        bus := { sys.bus with timer := { timer with tima := u8 (timer.tima + 1) } } }
  if timer.tac &&& TAC_ENABLED ≠ 0 then
    { sys1 with sched := libyagbe_sched_insert sys1.sched event }
  else
    sys1

/-- Mirror of libyagbe_timer_reset (timer.c lines 58-64). -/
def libyagbe_timer_reset : libyagbe_timer := ⟨0xF8, 0x00, 0x00⟩

/-- Mirror of libyagbe_timer_handle_tac (timer.c lines 66-94).  The masks
(tac & ~0x07) act on a uint8_t, hence the 0xF8 mask.  In the disable branch
the event deletion is commented out in the source, so only the register
update remains. -/
def libyagbe_timer_handle_tac (sys : System) (tac : Nat) : System :=
  let timer := sys.bus.timer
  let newtac := u8 ((timer.tac &&& 0xF8) ||| (tac &&& 0x07))
  if timer.tac &&& TAC_ENABLED = 0 ∧ tac &&& TAC_ENABLED ≠ 0 then
    let event : SchedEvent := ⟨timing (tac &&& 0x03), CbFunc.handleTimerUpdate⟩
    { sys with
      bus := { sys.bus with timer := { timer with tac := newtac } },
      sched := libyagbe_sched_insert sys.sched event }
  else
    { sys with bus := { sys.bus with timer := { timer with tac := newtac } } }

/-- Mirror of libyagbe_sched_step (sched.c lines 124-138), lifted to the
System so that the fired event's callback (always handle_timer_update in this
codebase) can act on the bus.  The fired event, if any, is returned alongside
the new state; a null cb_func would be a null-pointer call in C and is never
installed, so firing it is modelled as a no-op. -/
def libyagbe_sched_step (sys : System) : System × Option SchedEvent :=
  let sys := { sys with
    sched := { sys.sched with current_timestamp := u64 (sys.sched.current_timestamp + 4) } }
  if sys.sched.heap_size = 0 then
    (sys, none)
  else if sys.sched.current_timestamp = find_min sys.sched then
    let em := extract_min sys.sched
    let sys := { sys with sched := em.2 }
    let sys :=
      match em.1.cb_func with
      | CbFunc.handleTimerUpdate => handle_timer_update sys
      | CbFunc.null => sys
    (sys, some em.1)
  else
    (sys, none)

/-- Runs n scheduler steps, collecting the fired events in order. -/
def sched_run (sys : System) : Nat → System × List SchedEvent
  | 0 => (sys, [])
  | n + 1 =>
    let st := libyagbe_sched_step sys
    let rest := sched_run st.1 n
    (rest.1, st.2.toList ++ rest.2)

/-! ## Bus (bus.c, the scheduler-stepping version of part_001)

The address decode of the C switch depends only on the address, so it is
factored into a routing function from addresses to accessor functions; the
read and write entry points then add the scheduler stepping and the
unhandled-access logging exactly where the C does. -/

/-- Modelled from the spec: the timer IO offsets of the missing timer.h
header.  The spec places the timer counter, reload and control registers on
the IO page; the conventional offsets (matching the case 0x0 sub-switch of
bus.c and the hardware) are TIMA = 5, TMA = 6, TAC = 7. -/
def LIBYAGBE_TIMER_IO_TIMA : Nat := 0x5

/-- Modelled from the spec: see LIBYAGBE_TIMER_IO_TIMA. -/
def LIBYAGBE_TIMER_IO_TMA : Nat := 0x6

/-- Modelled from the spec: see LIBYAGBE_TIMER_IO_TIMA. -/
def LIBYAGBE_TIMER_IO_TAC : Nat := 0x7

/-- LIBYAGBE_BUS_IO_IF (bus.h line 34): low nibble of $FF0F. -/
def LIBYAGBE_BUS_IO_IF : Nat := 0xF

/-- LIBYAGBE_BUS_IO_IE (bus.h line 37): low nibble of $FFFF. -/
def LIBYAGBE_BUS_IO_IE : Nat := 0xF

/-- The read half of the bus address decode (bus.c lines 260-349): either the
accessor the address routes to, or none for the paths that fall through to
the final Unhandled-read printf. -/
def bus_read_route (address : Nat) : Option (System → Nat) :=
  match address >>> 12 with
  | 0x0 | 0x1 | 0x2 | 0x3 | 0x4 | 0x5 | 0x6 | 0x7 =>
    some (fun sys => u8 (sys.bus.cart.data address))
  | 0xC | 0xD =>
    some (fun sys => u8 (sys.bus.wram (address - 0xC000)))
  | 0xF =>
    match (address >>> 8) &&& 0x0F with
    | 0xF =>
      match (address &&& 0x00FF) >>> 4 with
      | 0x0 =>
        match address &&& 0x000F with
        | 0x5 => some (fun sys => u8 sys.bus.timer.tima)
        | 0xF => some (fun sys => u8 sys.bus.interrupt_flag)
        | _ => none
      | 0x4 =>
        match address &&& 0x000F with
        | 0x4 => some (fun sys => u8 sys.bus.ppu.ly)
        | _ => none
      | 0x8 | 0x9 | 0xA | 0xB | 0xC | 0xD | 0xE =>
        some (fun sys => u8 (sys.bus.hram (address - 0xFF80)))
      | 0xF =>
        match address &&& 0x000F with
        | 0x0 | 0x1 | 0x2 | 0x3 | 0x4 | 0x5 | 0x6 | 0x7
        | 0x9 | 0xA | 0xB | 0xC | 0xD | 0xE =>
          some (fun sys => u8 (sys.bus.hram (address - 0xFF80)))
        | 0xF => some (fun sys => u8 sys.bus.interrupt_enable)
        | _ => none
      | _ => none
    | _ => none
  | _ => none

/-- Result of a bus read: the byte, the new state, and whether the final
Unhandled-read printf ran (diagnostic stdout, kept outside the System). -/
structure ReadResult where
  value : Nat
  sys : System
  logged : Bool

/-- Mirror of libyagbe_bus_read_memory (bus.c lines 254-352): the scheduler
is stepped first, then the address is decoded against the stepped state; the
unhandled fallback logs and returns 0xFF. -/
def libyagbe_bus_read_memory (sys : System) (address : Nat) : ReadResult :=
  let sys := (libyagbe_sched_step sys).1
  match bus_read_route address with
  | some f => ⟨f sys, sys, false⟩
  | none => ⟨0xFF, sys, true⟩

/-- The write half of the bus address decode (bus.c lines 361-517): the
store/side effect the address routes to, or none for the paths that set
good = false.  The silently ignored addresses (serial control $FF02, the
unbacked audio and wave registers of the case 0x2 and case 0x3 sub-switches)
keep good = true in the C and so map to a some that stores nothing. -/
def bus_write_route (address : Nat) : Option (System → Nat → System) :=
  match address >>> 12 with
  | 0x8 | 0x9 =>
    some (fun sys data => { sys with
      bus := { sys.bus with ppu := { sys.bus.ppu with
        vram := fun j => if j = address - 0x8000 then u8 data else sys.bus.ppu.vram j } } })
  | 0xC | 0xD =>
    some (fun sys data => { sys with
      bus := { sys.bus with
        wram := fun j => if j = address - 0xC000 then u8 data else sys.bus.wram j } })
  | 0xF =>
    match (address >>> 8) &&& 0x0F with
    | 0xF =>
      match (address &&& 0x00FF) >>> 4 with
      | 0x0 =>
        match address &&& 0x000F with
        | 0x1 => some (fun sys data => { sys with serial_out := sys.serial_out ++ [u8 data] })
        | 0x2 => some (fun sys _ => sys)
        | 0x5 => some (fun sys data => { sys with
            bus := { sys.bus with timer := { sys.bus.timer with tima := u8 data } } })
        | 0x6 => some (fun sys data => { sys with
            bus := { sys.bus with timer := { sys.bus.timer with tma := u8 data } } })
        | 0x7 => some (fun sys data => libyagbe_timer_handle_tac sys data)
        | 0xF => some (fun sys data => { sys with
            bus := { sys.bus with interrupt_flag := u8 data } })
        | _ => none
      | 0x2 =>
        match address &&& 0x000F with
        | 0x4 => some (fun sys data => { sys with
            bus := { sys.bus with apu := { sys.bus.apu with nr50 := u8 data } } })
        | 0x5 => some (fun sys data => { sys with
            bus := { sys.bus with apu := { sys.bus.apu with nr51 := u8 data } } })
        | 0x6 => some (fun sys data => { sys with
            bus := { sys.bus with apu := { sys.bus.apu with nr52 := u8 data } } })
        | _ => some (fun sys _ => sys)
      | 0x3 => some (fun sys _ => sys)
      | 0x4 =>
        match address &&& 0x000F with
        | 0x0 => some (fun sys data => { sys with
            bus := { sys.bus with ppu := { sys.bus.ppu with lcdc := u8 data } } })
        | 0x2 => some (fun sys data => { sys with
            bus := { sys.bus with ppu := { sys.bus.ppu with scy := u8 data } } })
        | 0x3 => some (fun sys data => { sys with
            bus := { sys.bus with ppu := { sys.bus.ppu with scx := u8 data } } })
        | 0x7 => some (fun sys data => { sys with
            bus := { sys.bus with ppu := { sys.bus.ppu with bgp := u8 data } } })
        | _ => none
      | 0x8 | 0x9 | 0xA | 0xB | 0xC | 0xD | 0xE =>
        some (fun sys data => { sys with
          bus := { sys.bus with
            hram := fun j => if j = address - 0xFF80 then u8 data else sys.bus.hram j } })
      | 0xF =>
        match address &&& 0x000F with
        | 0x0 | 0x1 | 0x2 | 0x3 | 0x4 | 0x5 | 0x6 | 0x7
        | 0x9 | 0xA | 0xB | 0xC | 0xD | 0xE =>
          some (fun sys data => { sys with
            bus := { sys.bus with
              hram := fun j => if j = address - 0xFF80 then u8 data else sys.bus.hram j } })
        | 0xF => some (fun sys data => { sys with
            bus := { sys.bus with interrupt_enable := u8 data } })
        | _ => none
      | _ => none
    | _ => none
  | _ => none

/-- Result of a bus write: the new state and whether the Unhandled-write
printf ran. -/
structure WriteResult where
  sys : System
  logged : Bool

/-- Mirror of libyagbe_bus_write_memory (bus.c lines 354-524): the store (or
the good = false fallback) happens first, then the scheduler is stepped, then
the unhandled case logs. -/
def libyagbe_bus_write_memory (sys : System) (address data : Nat) : WriteResult :=
  match bus_write_route address with
  | some st => ⟨(libyagbe_sched_step (st sys data)).1, false⟩
  | none => ⟨(libyagbe_sched_step sys).1, true⟩

/-! ## CPU, current implementation (cpu.c lines 3309-4282)

This is the split-register version declared in the public cpu.h: eight 8-bit
registers, and a step function returning the elapsed cycles (0 for an opcode
with no table entry).  The opcode numbers of the missing cpu_defs.h header
coincide with the main_opcodes/cb_opcodes enums of the first implementation
in the same file (cpu.c lines 76-582), which is where the literal values
below come from. -/

/-- Mirror of struct libyagbe_cpu (cpu.h). -/
structure libyagbe_cpu where
  b : Nat
  c : Nat
  d : Nat
  e : Nat
  f : Nat
  h : Nat
  l : Nat
  a : Nat
  pc : Nat
  sp : Nat
  instruction : Nat

/-- LIBYAGBE_CPU_FLAG_Z (cpu.h). -/
def FLAG_Z : Nat := 0x80

/-- LIBYAGBE_CPU_FLAG_N (cpu.h). -/
def FLAG_N : Nat := 0x40

/-- LIBYAGBE_CPU_FLAG_H (cpu.h). -/
def FLAG_H : Nat := 0x20

/-- LIBYAGBE_CPU_FLAG_C (cpu.h). -/
def FLAG_C : Nat := 0x10

/-- The enum alu_flag of cpu.c. -/
inductive AluFlag where
  | normal
  | withCarry
  | discardResult
  | clearZero
  deriving DecidableEq

/-- Mirror of alu_srl (cpu.c lines 3335-3356).  The uint8_t parameter
conversion is made explicit with u8.  Clearing a flag with f &= ~FLAG on a
uint8_t is the corresponding 0xFF-complement mask. -/
def alu_srl (cpu : libyagbe_cpu) (reg : Nat) : libyagbe_cpu × Nat :=
  let reg := u8 reg
  let f := cpu.f &&& 0xBF
  let f := f &&& 0xDF
  let f := if reg &&& 1 ≠ 0 then f ||| FLAG_C else f &&& 0xEF
  let reg := reg >>> 1
  let f := if reg = 0 then f ||| FLAG_Z else f &&& 0x7F
  ({ cpu with f := f }, reg)

/-- Mirror of alu_rr (cpu.c lines 3358-3385). -/
def alu_rr (cpu : libyagbe_cpu) (reg : Nat) (flag : AluFlag) : libyagbe_cpu × Nat :=
  let reg := u8 reg
  let f := cpu.f &&& 0xBF
  let f := f &&& 0xDF
  let old_carry_flag_value := if f &&& FLAG_C ≠ 0 then 0x80 else 0x00
  let f := if reg &&& 1 ≠ 0 then f ||| FLAG_C else f &&& 0xEF
  let reg := (reg >>> 1) ||| old_carry_flag_value
  if flag = AluFlag.clearZero then
    ({ cpu with f := f &&& 0x7F }, reg)
  else
    let f := if reg = 0 then f ||| FLAG_Z else f &&& 0x7F
    ({ cpu with f := f }, reg)

/-- Mirror of alu_add (cpu.c lines 3387-3413).  There is no half-carry
update in this version. -/
def alu_add (cpu : libyagbe_cpu) (addend : Nat) (flag : AluFlag) : libyagbe_cpu :=
  let addend := u8 addend
  let f := cpu.f &&& 0xBF
  let sum := cpu.a + addend +
    (if flag = AluFlag.withCarry then (if f &&& FLAG_C ≠ 0 then 1 else 0) else 0)
  let s := u8 sum
  let f := if s = 0 then f ||| FLAG_Z else f &&& 0x7F
  let f := if sum > 0xFF then f ||| FLAG_C else f &&& 0xEF
  { cpu with f := f, a := s }

/-- Mirror of alu_add_hl (cpu.c lines 3415-3436).  Only N and C are touched. -/
def alu_add_hl (cpu : libyagbe_cpu) (hi lo : Nat) : libyagbe_cpu :=
  let hi := u8 hi
  let lo := u8 lo
  let f := cpu.f &&& 0xBF
  let hl := (cpu.h <<< 8) ||| cpu.l
  let pair := (hi <<< 8) ||| lo
  let sum := hl + pair
  let f := if sum > 0xFFFF then f ||| FLAG_C else f &&& 0xEF
  let result := u16 sum
  { cpu with f := f, h := result >>> 8, l := result &&& 0x00FF }

/-- Mirror of alu_sub (cpu.c lines 3438-3458).  This version never sets the
Subtract or Half-carry bits, ignores the carry-in, and its carry test is the
direct comparison subtrahend > a. -/
def alu_sub (cpu : libyagbe_cpu) (subtrahend : Nat) (flag : AluFlag) : libyagbe_cpu :=
  let subtrahend := u8 subtrahend
  let diff := (((cpu.a : Int) - subtrahend).emod 256).toNat
  let f := if diff = 0 then cpu.f ||| FLAG_Z else cpu.f &&& 0x7F
  let f := if subtrahend > cpu.a then f ||| FLAG_C else f &&& 0xEF
  if flag ≠ AluFlag.discardResult then
    { cpu with f := f, a := diff }
  else
    { cpu with f := f }

/-- Mirror of alu_inc (cpu.c lines 3460-3472).  There is no half-carry
update in this version. -/
def alu_inc (cpu : libyagbe_cpu) (value : Nat) : libyagbe_cpu × Nat :=
  let value := u8 value
  let f := cpu.f &&& 0xBF
  let value := u8 (value + 1)
  let f := if value = 0 then f ||| FLAG_Z else f &&& 0x7F
  ({ cpu with f := f }, value)

/-- Mirror of alu_dec (cpu.c lines 3496-3508). -/
def alu_dec (cpu : libyagbe_cpu) (value : Nat) : libyagbe_cpu × Nat :=
  let value := u8 value
  let f := cpu.f ||| FLAG_N
  let value := dec8 value
  let f := if value = 0 then f ||| FLAG_Z else f &&& 0x7F
  ({ cpu with f := f }, value)

/-- Mirror of call_if (cpu.c lines 3474-3494). -/
def call_if (cpu : libyagbe_cpu) (sys : System) (condition_met : Bool) :
    libyagbe_cpu × System :=
  if condition_met then
    let r1 := libyagbe_bus_read_memory sys (u16 (cpu.pc + 1))
    let r2 := libyagbe_bus_read_memory r1.sys (u16 (cpu.pc + 2))
    let address := (r2.value <<< 8) ||| r1.value
    let pc := u16 (cpu.pc + 3)
    let sp1 := dec16 cpu.sp
    let w1 := libyagbe_bus_write_memory r2.sys sp1 (pc >>> 8)
    let sp2 := dec16 sp1
    let w2 := libyagbe_bus_write_memory w1.sys sp2 (pc &&& 0x00FF)
    ({ cpu with pc := address, sp := sp2 }, w2.sys)
  else
    ({ cpu with pc := u16 (cpu.pc + 3) }, sys)

/-- Mirror of jr_if (cpu.c lines 3510-3522). -/
def jr_if (cpu : libyagbe_cpu) (sys : System) (condition_met : Bool) :
    libyagbe_cpu × System :=
  if condition_met then
    let r := libyagbe_bus_read_memory sys (u16 (cpu.pc + 1))
    ({ cpu with pc := (((cpu.pc : Int) + (s8 r.value + 2)).emod 65536).toNat }, r.sys)
  else
    ({ cpu with pc := u16 (cpu.pc + 2) }, sys)

/-- Mirror of jp_if (cpu.c lines 3524-3537). -/
def jp_if (cpu : libyagbe_cpu) (sys : System) (condition_met : Bool) :
    libyagbe_cpu × System :=
  if condition_met then
    let r1 := libyagbe_bus_read_memory sys (u16 (cpu.pc + 1))
    let r2 := libyagbe_bus_read_memory r1.sys (u16 (cpu.pc + 2))
    ({ cpu with pc := (r2.value <<< 8) ||| r1.value }, r2.sys)
  else
    ({ cpu with pc := u16 (cpu.pc + 3) }, sys)

/-- Mirror of ret_if (cpu.c lines 3539-3552). -/
def ret_if (cpu : libyagbe_cpu) (sys : System) (condition_met : Bool) :
    libyagbe_cpu × System :=
  if condition_met then
    let r1 := libyagbe_bus_read_memory sys cpu.sp
    let sp1 := u16 (cpu.sp + 1)
    let r2 := libyagbe_bus_read_memory r1.sys sp1
    let sp2 := u16 (sp1 + 1)
    ({ cpu with pc := (r2.value <<< 8) ||| r1.value, sp := sp2 }, r2.sys)
  else
    ({ cpu with pc := u16 (cpu.pc + 1) }, sys)

/-- Mirror of libyagbe_cpu_reset (cpu.c lines 3554-3569): the documented
power-on register values. -/
def libyagbe_cpu_reset (cpu : libyagbe_cpu) : libyagbe_cpu :=
  { cpu with
    a := 0x01, f := 0xB0,
    b := 0x00, c := 0x13,
    d := 0x00, e := 0xD8,
    h := 0x01, l := 0x4D,
    sp := 0xFFFE, pc := 0x0100 }

/-- The switch body of the current libyagbe_cpu_step (cpu.c lines 3578-4281),
dispatching on the latched instruction byte; an opcode with no table entry
returns 0 cycles.  Each arm carries the opcode name of the C case label; the
sub-dispatch under 0xCB mirrors the PREFIX_CB switch.  Note the INC_DE arm
really does store the bumped pair into H and L, as the source does (cpu.c
lines 3659-3660). -/
def cpu_execute (cpu : libyagbe_cpu) (sys : System) : Nat × libyagbe_cpu × System :=
  match cpu.instruction with
  | 0x00 => -- NOP
    (4, { cpu with pc := u16 (cpu.pc + 1) }, sys)
  | 0x01 => -- LD_BC_IMM16
    let r1 := libyagbe_bus_read_memory sys (u16 (cpu.pc + 1))
    let r2 := libyagbe_bus_read_memory r1.sys (u16 (cpu.pc + 2))
    (4, { cpu with c := r1.value, b := r2.value, pc := u16 (cpu.pc + 3) }, r2.sys)
  | 0x03 => -- INC_BC
    let bc := u16 (((cpu.b <<< 8) ||| cpu.c) + 1)
    (4, { cpu with b := bc >>> 8, c := bc &&& 0x00FF, pc := u16 (cpu.pc + 1) }, sys)
  | 0x04 => -- INC_B
    let ai := alu_inc cpu cpu.b
    (4, { ai.1 with b := ai.2, pc := u16 (cpu.pc + 1) }, sys)
  | 0x05 => -- DEC_B
    let ad := alu_dec cpu cpu.b
    (4, { ad.1 with b := ad.2, pc := u16 (cpu.pc + 1) }, sys)
  | 0x06 => -- LD_B_IMM8
    let r1 := libyagbe_bus_read_memory sys (u16 (cpu.pc + 1))
    (4, { cpu with b := r1.value, pc := u16 (cpu.pc + 2) }, r1.sys)
  | 0x0C => -- INC_C
    let ai := alu_inc cpu cpu.c
    (4, { ai.1 with c := ai.2, pc := u16 (cpu.pc + 1) }, sys)
  | 0x0D => -- DEC_C
    let ad := alu_dec cpu cpu.c
    (4, { ad.1 with c := ad.2, pc := u16 (cpu.pc + 1) }, sys)
  | 0x0E => -- LD_C_IMM8
    let r1 := libyagbe_bus_read_memory sys (u16 (cpu.pc + 1))
    (4, { cpu with c := r1.value, pc := u16 (cpu.pc + 2) }, r1.sys)
  | 0x11 => -- LD_DE_IMM16
    let r1 := libyagbe_bus_read_memory sys (u16 (cpu.pc + 1))
    let r2 := libyagbe_bus_read_memory r1.sys (u16 (cpu.pc + 2))
    (4, { cpu with e := r1.value, d := r2.value, pc := u16 (cpu.pc + 3) }, r2.sys)
  | 0x12 => -- LD_MEM_DE_A
    let de := (cpu.d <<< 8) ||| cpu.e
    let w := libyagbe_bus_write_memory sys de cpu.a
    (4, { cpu with pc := u16 (cpu.pc + 1) }, w.sys)
  | 0x13 => -- INC_DE (the source stores the result into H and L)
    let de := u16 (((cpu.d <<< 8) ||| cpu.e) + 1)
    (4, { cpu with h := de >>> 8, l := de &&& 0x00FF, pc := u16 (cpu.pc + 1) }, sys)
  | 0x14 => -- INC_D
    let ai := alu_inc cpu cpu.d
    (4, { ai.1 with d := ai.2, pc := u16 (cpu.pc + 1) }, sys)
  | 0x18 => -- JR_SIMM8
    let j := jr_if cpu sys true
    (4, j.1, j.2)
  | 0x1A => -- LD_A_MEM_DE
    let de := (cpu.d <<< 8) ||| cpu.e
    let r1 := libyagbe_bus_read_memory sys de
    (4, { cpu with a := r1.value, pc := u16 (cpu.pc + 1) }, r1.sys)
  | 0x1C => -- INC_E
    let ai := alu_inc cpu cpu.e
    (4, { ai.1 with e := ai.2, pc := u16 (cpu.pc + 1) }, sys)
  | 0x1D => -- DEC_E
    let ad := alu_dec cpu cpu.e
    (4, { ad.1 with e := ad.2, pc := u16 (cpu.pc + 1) }, sys)
  | 0x1F => -- RRA
    let ar := alu_rr cpu cpu.a AluFlag.clearZero
    (4, { ar.1 with a := ar.2, pc := u16 (cpu.pc + 1) }, sys)
  | 0x20 => -- JR_NZ_SIMM8
    let j := jr_if cpu sys (cpu.f &&& FLAG_Z = 0)
    (4, j.1, j.2)
  | 0x21 => -- LD_HL_IMM16
    let r1 := libyagbe_bus_read_memory sys (u16 (cpu.pc + 1))
    let r2 := libyagbe_bus_read_memory r1.sys (u16 (cpu.pc + 2))
    (4, { cpu with l := r1.value, h := r2.value, pc := u16 (cpu.pc + 3) }, r2.sys)
  | 0x22 => -- LDI_MEM_HL_A
    let hl := (cpu.h <<< 8) ||| cpu.l
    let w := libyagbe_bus_write_memory sys hl cpu.a
    let hl := u16 (hl + 1)
    (4, { cpu with h := hl >>> 8, l := hl &&& 0x00FF, pc := u16 (cpu.pc + 1) }, w.sys)
  | 0x23 => -- INC_HL
    let hl := u16 (((cpu.h <<< 8) ||| cpu.l) + 1)
    (4, { cpu with h := hl >>> 8, l := hl &&& 0x00FF, pc := u16 (cpu.pc + 1) }, sys)
  | 0x24 => -- INC_H
    let ai := alu_inc cpu cpu.h
    (4, { ai.1 with h := ai.2, pc := u16 (cpu.pc + 1) }, sys)
  | 0x25 => -- DEC_H
    let ad := alu_dec cpu cpu.h
    (4, { ad.1 with h := ad.2, pc := u16 (cpu.pc + 1) }, sys)
  | 0x26 => -- LD_H_IMM8
    let r1 := libyagbe_bus_read_memory sys (u16 (cpu.pc + 1))
    (4, { cpu with h := r1.value, pc := u16 (cpu.pc + 2) }, r1.sys)
  | 0x27 => -- DAA (only advances pc in this implementation)
    (4, { cpu with pc := u16 (cpu.pc + 1) }, sys)
  | 0x28 => -- JR_Z_SIMM8
    let j := jr_if cpu sys (cpu.f &&& FLAG_Z ≠ 0)
    (4, j.1, j.2)
  | 0x29 => -- ADD_HL_HL
    (4, { alu_add_hl cpu cpu.h cpu.l with pc := u16 (cpu.pc + 1) }, sys)
  | 0x2A => -- LDI_A_MEM_HL
    let hl := (cpu.h <<< 8) ||| cpu.l
    let r1 := libyagbe_bus_read_memory sys hl
    let hl := u16 (hl + 1)
    (4, { cpu with a := r1.value, l := hl &&& 0x00FF, h := hl >>> 8, pc := u16 (cpu.pc + 1) }, r1.sys)
  | 0x2C => -- INC_L
    let ai := alu_inc cpu cpu.l
    (4, { ai.1 with l := ai.2, pc := u16 (cpu.pc + 1) }, sys)
  | 0x2D => -- DEC_L
    let ad := alu_dec cpu cpu.l
    (4, { ad.1 with l := ad.2, pc := u16 (cpu.pc + 1) }, sys)
  | 0x2F => -- CPL (only A is written; the flags are untouched here)
    (4, { cpu with a := u8 (cpu.a ^^^ 0xFF), pc := u16 (cpu.pc + 1) }, sys)
  | 0x30 => -- JR_NC_SIMM8
    let j := jr_if cpu sys (cpu.f &&& FLAG_C = 0)
    (4, j.1, j.2)
  | 0x31 => -- LD_SP_IMM16
    let r1 := libyagbe_bus_read_memory sys (u16 (cpu.pc + 1))
    let r2 := libyagbe_bus_read_memory r1.sys (u16 (cpu.pc + 2))
    (4, { cpu with sp := (r2.value <<< 8) ||| r1.value, pc := u16 (cpu.pc + 3) }, r2.sys)
  | 0x32 => -- LDD_HL_A
    let hl := (cpu.h <<< 8) ||| cpu.l
    let w := libyagbe_bus_write_memory sys hl cpu.a
    let hl := dec16 hl
    (4, { cpu with h := hl >>> 8, l := hl &&& 0x00FF, pc := u16 (cpu.pc + 1) }, w.sys)
  | 0x35 => -- DEC_MEM_HL
    let hl := (cpu.h <<< 8) ||| cpu.l
    let r1 := libyagbe_bus_read_memory sys hl
    let ad := alu_dec cpu r1.value
    let w := libyagbe_bus_write_memory r1.sys hl ad.2
    (4, { ad.1 with pc := u16 (cpu.pc + 1) }, w.sys)
  | 0x38 => -- JR_C_SIMM8
    let j := jr_if cpu sys (cpu.f &&& FLAG_C ≠ 0)
    (4, j.1, j.2)
  | 0x3C => -- INC_A
    let ai := alu_inc cpu cpu.a
    (4, { ai.1 with a := ai.2, pc := u16 (cpu.pc + 1) }, sys)
  | 0x3D => -- DEC_A
    let ad := alu_dec cpu cpu.a
    (4, { ad.1 with a := ad.2, pc := u16 (cpu.pc + 1) }, sys)
  | 0x3E => -- LD_A_IMM8
    let r1 := libyagbe_bus_read_memory sys (u16 (cpu.pc + 1))
    (4, { cpu with a := r1.value, pc := u16 (cpu.pc + 2) }, r1.sys)
  | 0x46 => -- LD_B_MEM_HL
    let r1 := libyagbe_bus_read_memory sys ((cpu.h <<< 8) ||| cpu.l)
    (4, { cpu with b := r1.value, pc := u16 (cpu.pc + 1) }, r1.sys)
  | 0x47 => -- LD_B_A
    (4, { cpu with b := cpu.a, pc := u16 (cpu.pc + 1) }, sys)
  | 0x4E => -- LD_C_MEM_HL
    let r1 := libyagbe_bus_read_memory sys ((cpu.h <<< 8) ||| cpu.l)
    (4, { cpu with c := r1.value, pc := u16 (cpu.pc + 1) }, r1.sys)
  | 0x4F => -- LD_C_A
    (4, { cpu with c := cpu.a, pc := u16 (cpu.pc + 1) }, sys)
  | 0x56 => -- LD_D_MEM_HL
    let r1 := libyagbe_bus_read_memory sys ((cpu.h <<< 8) ||| cpu.l)
    (4, { cpu with d := r1.value, pc := u16 (cpu.pc + 1) }, r1.sys)
  | 0x57 => -- LD_D_A
    (4, { cpu with d := cpu.a, pc := u16 (cpu.pc + 1) }, sys)
  | 0x5F => -- LD_E_A
    (4, { cpu with e := cpu.a, pc := u16 (cpu.pc + 1) }, sys)
  | 0x67 => -- LD_H_A
    (4, { cpu with h := cpu.a, pc := u16 (cpu.pc + 1) }, sys)
  | 0x6E => -- LD_L_MEM_HL
    let r1 := libyagbe_bus_read_memory sys ((cpu.h <<< 8) ||| cpu.l)
    (4, { cpu with l := r1.value, pc := u16 (cpu.pc + 1) }, r1.sys)
  | 0x6F => -- LD_L_A
    (4, { cpu with l := cpu.a, pc := u16 (cpu.pc + 1) }, sys)
  | 0x70 => -- LD_MEM_HL_B
    let w := libyagbe_bus_write_memory sys ((cpu.h <<< 8) ||| cpu.l) cpu.b
    (4, { cpu with pc := u16 (cpu.pc + 1) }, w.sys)
  | 0x71 => -- LD_MEM_HL_C
    let w := libyagbe_bus_write_memory sys ((cpu.h <<< 8) ||| cpu.l) cpu.c
    (4, { cpu with pc := u16 (cpu.pc + 1) }, w.sys)
  | 0x72 => -- LD_MEM_HL_D
    let w := libyagbe_bus_write_memory sys ((cpu.h <<< 8) ||| cpu.l) cpu.d
    (4, { cpu with pc := u16 (cpu.pc + 1) }, w.sys)
  | 0x77 => -- LD_MEM_HL_A
    let w := libyagbe_bus_write_memory sys ((cpu.h <<< 8) ||| cpu.l) cpu.a
    (4, { cpu with pc := u16 (cpu.pc + 1) }, w.sys)
  | 0x78 => -- LD_A_B
    (4, { cpu with a := cpu.b, pc := u16 (cpu.pc + 1) }, sys)
  | 0x79 => -- LD_A_C
    (4, { cpu with a := cpu.c, pc := u16 (cpu.pc + 1) }, sys)
  | 0x7A => -- LD_A_D
    (4, { cpu with a := cpu.d, pc := u16 (cpu.pc + 1) }, sys)
  | 0x7B => -- LD_A_E
    (4, { cpu with a := cpu.e, pc := u16 (cpu.pc + 1) }, sys)
  | 0x7C => -- LD_A_H
    (4, { cpu with a := cpu.h, pc := u16 (cpu.pc + 1) }, sys)
  | 0x7D => -- LD_A_L
    (4, { cpu with a := cpu.l, pc := u16 (cpu.pc + 1) }, sys)
  | 0x7E => -- LD_A_MEM_HL
    let r1 := libyagbe_bus_read_memory sys ((cpu.h <<< 8) ||| cpu.l)
    (4, { cpu with a := r1.value, pc := u16 (cpu.pc + 1) }, r1.sys)
  | 0xA9 => -- XOR_C
    let a := u8 (cpu.a ^^^ cpu.c)
    (4, { cpu with a := a, f := if a = 0 then 0x80 else 0x00, pc := u16 (cpu.pc + 1) }, sys)
  | 0xAE => -- XOR_MEM_HL
    let r1 := libyagbe_bus_read_memory sys ((cpu.h <<< 8) ||| cpu.l)
    let a := u8 (cpu.a ^^^ r1.value)
    (4, { cpu with a := a, f := if a = 0 then 0x80 else 0x00, pc := u16 (cpu.pc + 1) }, r1.sys)
  | 0xB1 => -- OR_C
    let a := u8 (cpu.a ||| cpu.c)
    (4, { cpu with a := a, f := if a = 0 then 0x80 else 0x00, pc := u16 (cpu.pc + 1) }, sys)
  | 0xB6 => -- OR_MEM_HL (the flag constants 0xA0/0x20 are what the source sets)
    let r1 := libyagbe_bus_read_memory sys ((cpu.h <<< 8) ||| cpu.l)
    let a := u8 (cpu.a ||| r1.value)
    (4, { cpu with a := a, f := if a = 0 then 0xA0 else 0x20, pc := u16 (cpu.pc + 1) }, r1.sys)
  | 0xB7 => -- OR_A (only the flags are written)
    (4, { cpu with f := if cpu.a = 0 then 0x80 else 0x00, pc := u16 (cpu.pc + 1) }, sys)
  | 0xBB => -- CP_E
    (4, { alu_sub cpu cpu.e AluFlag.discardResult with pc := u16 (cpu.pc + 1) }, sys)
  | 0xC1 => -- POP_BC
    let r1 := libyagbe_bus_read_memory sys cpu.sp
    let r2 := libyagbe_bus_read_memory r1.sys (u16 (cpu.sp + 1))
    (4, { cpu with c := r1.value, b := r2.value, sp := u16 (cpu.sp + 2), pc := u16 (cpu.pc + 1) }, r2.sys)
  | 0xC2 => -- JP_NZ_IMM16
    let j := jp_if cpu sys (cpu.f &&& FLAG_Z = 0)
    (4, j.1, j.2)
  | 0xC3 => -- JP_IMM16
    let j := jp_if cpu sys true
    (16, j.1, j.2)
  | 0xC4 => -- CALL_NZ_IMM16
    let j := call_if cpu sys (cpu.f &&& FLAG_Z = 0)
    (16, j.1, j.2)
  | 0xC5 => -- PUSH_BC
    let sp1 := dec16 cpu.sp
    let w1 := libyagbe_bus_write_memory sys sp1 cpu.b
    let sp2 := dec16 sp1
    let w2 := libyagbe_bus_write_memory w1.sys sp2 cpu.c
    (4, { cpu with sp := sp2, pc := u16 (cpu.pc + 1) }, w2.sys)
  | 0xC6 => -- ADD_A_IMM8
    let r1 := libyagbe_bus_read_memory sys (u16 (cpu.pc + 1))
    (4, { alu_add cpu r1.value AluFlag.normal with pc := u16 (cpu.pc + 2) }, r1.sys)
  | 0xC8 => -- RET_Z
    let j := ret_if cpu sys (cpu.f &&& FLAG_Z ≠ 0)
    (4, j.1, j.2)
  | 0xC9 => -- RET
    let j := ret_if cpu sys true
    (4, j.1, j.2)
  | 0xCB => -- PREFIX_CB
    let r2 := libyagbe_bus_read_memory sys (u16 (cpu.pc + 1))
    match r2.value with
    | 0x19 => -- RR_C
      let ar := alu_rr cpu cpu.c AluFlag.normal
      (4, { ar.1 with c := ar.2, pc := u16 (cpu.pc + 2) }, r2.sys)
    | 0x1A => -- RR_D
      let ar := alu_rr cpu cpu.d AluFlag.normal
      (4, { ar.1 with d := ar.2, pc := u16 (cpu.pc + 2) }, r2.sys)
    | 0x38 => -- SRL_B
      let ar := alu_srl cpu cpu.b
      (4, { ar.1 with b := ar.2, pc := u16 (cpu.pc + 2) }, r2.sys)
    | 0x37 => -- SWAP_A
      let a := u8 (((cpu.a &&& 0x0F) <<< 4) ||| (cpu.a >>> 4))
      (4, { cpu with a := a, f := if a = 0 then 0x80 else 0x00, pc := u16 (cpu.pc + 2) }, r2.sys)
    | _ => (0, cpu, r2.sys)
  | 0xCD => -- CALL_IMM16
    let j := call_if cpu sys true
    (16, j.1, j.2)
  | 0xCE => -- ADC_A_IMM8
    let r1 := libyagbe_bus_read_memory sys (u16 (cpu.pc + 1))
    (4, { alu_add cpu r1.value AluFlag.withCarry with pc := u16 (cpu.pc + 2) }, r1.sys)
  | 0xD0 => -- RET_NC
    let j := ret_if cpu sys (cpu.f &&& FLAG_C = 0)
    (4, j.1, j.2)
  | 0xD1 => -- POP_DE
    let r1 := libyagbe_bus_read_memory sys cpu.sp
    let r2 := libyagbe_bus_read_memory r1.sys (u16 (cpu.sp + 1))
    (4, { cpu with e := r1.value, d := r2.value, sp := u16 (cpu.sp + 2), pc := u16 (cpu.pc + 1) }, r2.sys)
  | 0xD5 => -- PUSH_DE
    let sp1 := dec16 cpu.sp
    let w1 := libyagbe_bus_write_memory sys sp1 cpu.d
    let sp2 := dec16 sp1
    let w2 := libyagbe_bus_write_memory w1.sys sp2 cpu.e
    (4, { cpu with sp := sp2, pc := u16 (cpu.pc + 1) }, w2.sys)
  | 0xD6 => -- SUB_IMM8
    let r1 := libyagbe_bus_read_memory sys (u16 (cpu.pc + 1))
    (4, { alu_sub cpu r1.value AluFlag.normal with pc := u16 (cpu.pc + 2) }, r1.sys)
  | 0xD8 => -- RET_C
    let j := ret_if cpu sys (cpu.f &&& FLAG_C ≠ 0)
    (4, j.1, j.2)
  | 0xE0 => -- LDH_IMM8_A
    let r1 := libyagbe_bus_read_memory sys (u16 (cpu.pc + 1))
    let w := libyagbe_bus_write_memory r1.sys (0xFF00 + r1.value) cpu.a
    (4, { cpu with pc := u16 (cpu.pc + 2) }, w.sys)
  | 0xE1 => -- POP_HL
    let r1 := libyagbe_bus_read_memory sys cpu.sp
    let r2 := libyagbe_bus_read_memory r1.sys (u16 (cpu.sp + 1))
    (4, { cpu with l := r1.value, h := r2.value, sp := u16 (cpu.sp + 2), pc := u16 (cpu.pc + 1) }, r2.sys)
  | 0xE5 => -- PUSH_HL
    let sp1 := dec16 cpu.sp
    let w1 := libyagbe_bus_write_memory sys sp1 cpu.h
    let sp2 := dec16 sp1
    let w2 := libyagbe_bus_write_memory w1.sys sp2 cpu.l
    (4, { cpu with sp := sp2, pc := u16 (cpu.pc + 1) }, w2.sys)
  | 0xE6 => -- AND_IMM8 (the flag constants 0xA0/0x20 are what the source sets)
    let r1 := libyagbe_bus_read_memory sys (u16 (cpu.pc + 1))
    let a := u8 (cpu.a &&& r1.value)
    (4, { cpu with a := a, f := if a = 0 then 0xA0 else 0x20, pc := u16 (cpu.pc + 2) }, r1.sys)
  | 0xE9 => -- JP_HL
    (4, { cpu with pc := (cpu.h <<< 8) ||| cpu.l }, sys)
  | 0xEA => -- LD_MEM_IMM16_A
    let r1 := libyagbe_bus_read_memory sys (u16 (cpu.pc + 1))
    let r2 := libyagbe_bus_read_memory r1.sys (u16 (cpu.pc + 2))
    let w := libyagbe_bus_write_memory r2.sys ((r2.value <<< 8) ||| r1.value) cpu.a
    (4, { cpu with pc := u16 (cpu.pc + 3) }, w.sys)
  | 0xEE => -- XOR_IMM8
    let r1 := libyagbe_bus_read_memory sys (u16 (cpu.pc + 1))
    let a := u8 (cpu.a ^^^ r1.value)
    (4, { cpu with a := a, f := if a = 0 then 0x80 else 0x00, pc := u16 (cpu.pc + 2) }, r1.sys)
  | 0xF0 => -- LDH_A_IMM8
    let r1 := libyagbe_bus_read_memory sys (u16 (cpu.pc + 1))
    let r2 := libyagbe_bus_read_memory r1.sys (0xFF00 + r1.value)
    (4, { cpu with a := r2.value, pc := u16 (cpu.pc + 2) }, r2.sys)
  | 0xF1 => -- POP_AF (the popped flag byte is masked with ~0x0F)
    let r1 := libyagbe_bus_read_memory sys cpu.sp
    let r2 := libyagbe_bus_read_memory r1.sys (u16 (cpu.sp + 1))
    (4, { cpu with f := r1.value &&& 0xF0, a := r2.value, sp := u16 (cpu.sp + 2), pc := u16 (cpu.pc + 1) }, r2.sys)
  | 0xF3 => -- DI (recorded as a no-op beyond the pc bump)
    (4, { cpu with pc := u16 (cpu.pc + 1) }, sys)
  | 0xF5 => -- PUSH_AF
    let sp1 := dec16 cpu.sp
    let w1 := libyagbe_bus_write_memory sys sp1 cpu.a
    let sp2 := dec16 sp1
    let w2 := libyagbe_bus_write_memory w1.sys sp2 cpu.f
    (4, { cpu with sp := sp2, pc := u16 (cpu.pc + 1) }, w2.sys)
  | 0xFA => -- LD_A_MEM_IMM16
    let r1 := libyagbe_bus_read_memory sys (u16 (cpu.pc + 1))
    let r2 := libyagbe_bus_read_memory r1.sys (u16 (cpu.pc + 2))
    let r3 := libyagbe_bus_read_memory r2.sys ((r2.value <<< 8) ||| r1.value)
    (4, { cpu with a := r3.value, pc := u16 (cpu.pc + 3) }, r3.sys)
  | 0xFE => -- CP_IMM8
    let r1 := libyagbe_bus_read_memory sys (u16 (cpu.pc + 1))
    (4, { alu_sub cpu r1.value AluFlag.discardResult with pc := u16 (cpu.pc + 2) }, r1.sys)
  | _ => (0, cpu, sys)

/-- Mirror of the current libyagbe_cpu_step (cpu.c lines 3571-4282): the
opcode byte at pc is fetched through the bus and latched into
cpu.instruction, and the switch (cpu_execute above) dispatches on it. -/
def libyagbe_cpu_step (cpu : libyagbe_cpu) (sys : System) : Nat × libyagbe_cpu × System :=
  let r := libyagbe_bus_read_memory sys cpu.pc
  cpu_execute { cpu with instruction := r.value } r.sys

/-- Runs n instructions, dropping the cycle counts. -/
def cpu_run (cpu : libyagbe_cpu) (sys : System) : Nat → libyagbe_cpu × System
  | 0 => (cpu, sys)
  | n + 1 =>
    let st := libyagbe_cpu_step cpu sys
    cpu_run st.2.1 st.2.2 n

/-! ## CPU, first implementation (cpu.c lines 18-3298)

The older, union-based version: each register pair is one 16-bit value whose
.byte.hi and .byte.lo views are its high and low bytes (the little-endian
union aliasing of the C struct), and the step function returns no cycle
count.  A is af.byte.hi and F is af.byte.lo. -/

/-- Register file of the first implementation's struct libyagbe_cpu: the four
pair values plus sp, pc and the latched instruction byte. -/
structure cpu_v1 where
  af : Nat
  bc : Nat
  de : Nat
  hl : Nat
  sp : Nat
  pc : Nat
  instruction : Nat

/-- Reading the .byte.hi view of a pair. -/
def hi_byte (v : Nat) : Nat := (v >>> 8) &&& 0xFF

/-- Reading the .byte.lo view of a pair. -/
def lo_byte (v : Nat) : Nat := v &&& 0xFF

/-- Storing through the .byte.hi view of a pair. -/
def set_hi_byte (v x : Nat) : Nat := (u8 x <<< 8) ||| (v &&& 0x00FF)

/-- Storing through the .byte.lo view of a pair. -/
def set_lo_byte (v x : Nat) : Nat := (v &&& 0xFF00) ||| u8 x

/-- Modelled from the spec: the SET_BIT_IF macro of the missing
private/utility.h header.  It sets the given bit when the condition holds and
clears it otherwise: the spec states each flag rule as "set iff ...", and the
three set_*_flag wrappers below depend on both directions. -/
def SET_BIT_IF (x bit : Nat) (cond : Bool) : Nat :=
  if cond then x ||| bit else x &&& (0xFF ^^^ bit)

/-- Mirror of set_zero_flag (cpu.c lines 622-625). -/
def set_zero_flag (flag_reg n : Nat) : Nat := SET_BIT_IF flag_reg FLAG_Z (n == 0)

/-- Mirror of set_half_carry_flag (cpu.c lines 627-630). -/
def set_half_carry_flag (flag_reg : Nat) (condition : Bool) : Nat :=
  SET_BIT_IF flag_reg FLAG_H condition

/-- Mirror of set_carry_flag (cpu.c lines 632-635). -/
def set_carry_flag (flag_reg : Nat) (condition : Bool) : Nat :=
  SET_BIT_IF flag_reg FLAG_C condition

/-- Mirror of the first implementation's alu_inc (cpu.c lines 637-648): it
clears N, sets or clears the half-carry flag from the low-nibble test,
increments, and sets or clears Z from the result. -/
def alu_inc_v1 (cpu : cpu_v1) (value : Nat) : cpu_v1 × Nat :=
  let value := u8 value
  let f := lo_byte cpu.af &&& 0xBF
  let f := set_half_carry_flag f ((value &&& 0x0F) == 0xF)
  let value := u8 (value + 1)
  let f := set_zero_flag f value
  ({ cpu with af := set_lo_byte cpu.af f }, value)

/-- Mirror of read_imm8 (cpu.c lines 602-608): the byte at pc, with pc
post-incremented. -/
def read_imm8_v1 (cpu : cpu_v1) (sys : System) : Nat × cpu_v1 × System :=
  let r := libyagbe_bus_read_memory sys cpu.pc
  (r.value, { cpu with pc := u16 (cpu.pc + 1) }, r.sys)

/-- Mirror of stack_push (cpu.c lines 584-592): two bus writes, the high byte
first at sp - 1, then the low byte at sp - 2. -/
def stack_push (cpu : cpu_v1) (sys : System) (hi lo : Nat) : cpu_v1 × System :=
  let sp1 := dec16 cpu.sp
  let w1 := libyagbe_bus_write_memory sys sp1 (u8 hi)
  let sp2 := dec16 sp1
  let w2 := libyagbe_bus_write_memory w1.sys sp2 (u8 lo)
  ({ cpu with sp := sp2 }, w2.sys)

/-- Mirror of stack_pop (cpu.c lines 820-829): two bus reads, the low byte
first at sp, then the high byte at sp + 1. -/
def stack_pop (cpu : cpu_v1) (sys : System) : Nat × cpu_v1 × System :=
  let r1 := libyagbe_bus_read_memory sys cpu.sp
  let sp1 := u16 (cpu.sp + 1)
  let r2 := libyagbe_bus_read_memory r1.sys sp1
  let sp2 := u16 (sp1 + 1)
  (u16 ((r2.value <<< 8) ||| r1.value), { cpu with sp := sp2 }, r2.sys)

/-- Embedding of the first libyagbe_cpu_step (cpu.c lines 931-3298), the
union-register version returning no cycle count.  Only the dispatch path the
theorems below inspect, OP_INC_A (cpu.c lines 1195-1197), is translated; the
remaining arms of the v1 switch are outside the scope of this development and
map to none. -/
def libyagbe_cpu_step_v1 (cpu : cpu_v1) (sys : System) : Option (cpu_v1 × System) :=
  let fetch := read_imm8_v1 cpu sys
  let cpu := { fetch.2.1 with instruction := fetch.1 }
  let sys := fetch.2.2
  match cpu.instruction with
  | 0x3C => -- OP_INC_A
    let ai := alu_inc_v1 cpu (hi_byte cpu.af)
    some ({ ai.1 with af := set_hi_byte ai.1.af ai.2 }, sys)
  | _ => none

/-! ## Baseline states used by the concrete theorems -/

/-- A baseline system: zeroed memories and registers, a reset timer and a
reset scheduler, with the given cartridge contents. -/
def base_sys (cart : Nat → Nat) : System :=
  { bus :=
      { apu := ⟨0, 0, 0⟩
        cart := ⟨cart⟩
        timer := libyagbe_timer_reset
        ppu := ⟨0, 0, 0, 0, 0, fun _ => 0⟩
        wram := fun _ => 0
        hram := fun _ => 0
        interrupt_flag := 0
        interrupt_enable := 0 }
    sched := libyagbe_sched_reset
    serial_out := [] }

/-- A cartridge holding the single opcode 0x3C (INC A) at the entry point
0x0100 and zeroes elsewhere. -/
def cart_inc_a : Nat → Nat := fun a => if a = 0x0100 then 0x3C else 0

/-- A scheduler holding three events with expiries 4, 8 and 12, inserted at
timestamp 0 into a reset scheduler (the C2 scenario). -/
def c2_sched : Sched :=
  libyagbe_sched_insert (libyagbe_sched_insert (libyagbe_sched_insert
    libyagbe_sched_reset ⟨4, CbFunc.null⟩) ⟨8, CbFunc.null⟩) ⟨12, CbFunc.null⟩

/-- The C2 scenario lifted to a System around a baseline bus. -/
def c2_sys : System := { base_sys (fun _ => 0) with sched := c2_sched }

/-- A reset scheduler after nine successful inserts (the C9 scenario). -/
def c9_full : Sched :=
  libyagbe_sched_insert (libyagbe_sched_insert (libyagbe_sched_insert
    (libyagbe_sched_insert (libyagbe_sched_insert (libyagbe_sched_insert
      (libyagbe_sched_insert (libyagbe_sched_insert (libyagbe_sched_insert
        libyagbe_sched_reset ⟨4, CbFunc.null⟩) ⟨4, CbFunc.null⟩) ⟨4, CbFunc.null⟩)
      ⟨4, CbFunc.null⟩) ⟨4, CbFunc.null⟩) ⟨4, CbFunc.null⟩)
    ⟨4, CbFunc.null⟩) ⟨4, CbFunc.null⟩) ⟨4, CbFunc.null⟩

/-- An address the bus maps to no region or register on either the read or
the write path. -/
def bus_unmapped (address : Nat) : Bool :=
  (bus_read_route address).isNone && (bus_write_route address).isNone

/-- One push of a (high byte, low byte) pair, threading the CPU/system pair. -/
def push1 (st : cpu_v1 × System) (p : Nat × Nat) : cpu_v1 × System :=
  stack_push st.1 st.2 p.1 p.2

/-- Iterated stack_push: pushes the register pairs of the list in order, each
given as a (high byte, low byte) pair. -/
def push_list (cpu : cpu_v1) (sys : System) (L : List (Nat × Nat)) : cpu_v1 × System :=
  L.foldl push1 (cpu, sys)

/-- One pop, appending the popped 16-bit value to the accumulated list. -/
def pop1 (st : List Nat × cpu_v1 × System) : List Nat × cpu_v1 × System :=
  (st.1 ++ [(stack_pop st.2.1 st.2.2).1], (stack_pop st.2.1 st.2.2).2)

/-- Iterated stack_pop: pops the given number of 16-bit values, returned in
pop order. -/
def pop_list (cpu : cpu_v1) (sys : System) (n : Nat) : List Nat × cpu_v1 × System :=
  pop1^[n] ([], cpu, sys)

/-! ## Flag-register low-nibble lemmas -/

lemma nib_and_mask (f m : Nat) (h : f &&& 0x0F = 0) (hm : m &&& 0x0F = 0x0F) :
    (f &&& m) &&& 0x0F = 0 := by
  rw [Nat.and_assoc, hm]; exact h

lemma nib_or (f b : Nat) (h : f &&& 0x0F = 0) (hb : b &&& 0x0F = 0) :
    (f ||| b) &&& 0x0F = 0 := by
  rw [Nat.and_distrib_right, h, hb]; rfl

lemma nib_hi_mask (v : Nat) : (v &&& 0xF0) &&& 0x0F = 0 := by
  rw [Nat.and_assoc, show (0xF0 &&& 0x0F : Nat) = 0 from rfl, Nat.and_zero]

lemma and15_191 : (191 &&& 15 : Nat) = 15 := rfl

lemma and15_223 : (223 &&& 15 : Nat) = 15 := rfl

lemma and15_239 : (239 &&& 15 : Nat) = 15 := rfl

lemma and15_127 : (127 &&& 15 : Nat) = 15 := rfl

lemma and15_240 : (240 &&& 15 : Nat) = 0 := rfl

lemma and15_160 : (160 &&& 15 : Nat) = 0 := rfl

lemma and15_128 : (128 &&& 15 : Nat) = 0 := rfl

lemma and15_64 : (64 &&& 15 : Nat) = 0 := rfl

lemma and15_32 : (32 &&& 15 : Nat) = 0 := rfl

lemma and15_16 : (16 &&& 15 : Nat) = 0 := rfl

set_option maxHeartbeats 4000000 in
/-- Every arm of the opcode switch leaves the low nibble of F clear when it
was clear before: the flag helpers only mask with 0xBF/0xDF/0xEF/0x7F and or
in 0x80/0x40/0x20/0x10, the direct flag stores use the constants
0x80/0x00/0xA0/0x20, and POP AF masks the popped byte with 0xF0. -/
lemma cpu_execute_f_nib (cpu : libyagbe_cpu) (sys : System) (h : cpu.f &&& 0x0F = 0) :
    ((cpu_execute cpu sys).2.1).f &&& 0x0F = 0 := by
  unfold cpu_execute
  split <;>
    simp only [alu_inc, alu_dec, alu_srl, alu_rr, alu_add, alu_add_hl, alu_sub,
      jr_if, jp_if, call_if, ret_if, FLAG_Z, FLAG_N, FLAG_H, FLAG_C] <;>
    (try split) <;>
    (try split_ifs) <;>
    simp [Nat.and_distrib_right, Nat.and_assoc, and15_191, and15_223, and15_239,
      and15_127, and15_240, and15_160, and15_128, and15_64, and15_32, and15_16, h]


/-! ## Scheduler exact-fire (C1) and timer enable (C3) -/

lemma u8_eq_of_lt {n : Nat} (h : n < 256) : u8 n = n := Nat.mod_eq_of_lt h

lemma u32_eq_of_lt {n : Nat} (h : n < 4294967296) : u32 n = n := Nat.mod_eq_of_lt h

lemma u64_eq_of_lt {n : Nat} (h : n < 18446744073709551616) : u64 n = n := Nat.mod_eq_of_lt h

lemma u64_mod_four (n : Nat) : u64 n % 4 = n % 4 := by
  unfold u64
  omega

/-- Sifting up from slot 0 compares the root with itself and stops. -/
lemma heapify_bottom_top_zero (ev : Nat → SchedEvent) : heapify_bottom_top ev 0 = ev := by
  rw [heapify_bottom_top]
  simp [get_parent_node]

/-- Sifting down in an empty heap does nothing. -/
lemma heapify_top_bottom_empty (ev : Nat → SchedEvent) (p : Nat) :
    heapify_top_bottom 0 ev p = ev := by
  rw [heapify_top_bottom]
  simp [smallest_node, get_left_child_of_node, get_right_child_of_node]

/-- Inserting into an empty scheduler puts the event, with its expiry made
absolute, into the root slot. -/
lemma insert_empty (s : Sched) (e : SchedEvent) (hs : s.heap_size = 0) :
    libyagbe_sched_insert s e =
      { s with heap_size := 1,
               events := setEvent s.events 0
                 { e with expiry_time := u32 (e.expiry_time + s.current_timestamp) } } := by
  simp only [libyagbe_sched_insert, hs, heapify_bottom_top_zero]

/-- Stepping the scheduler with no pending events only advances the
timestamp. -/
lemma sched_step_empty (sys : System) (hs : sys.sched.heap_size = 0) :
    libyagbe_sched_step sys =
      ({ sys with sched := { sys.sched with
          current_timestamp := u64 (sys.sched.current_timestamp + 4) } }, none) := by
  unfold libyagbe_sched_step
  simp [hs]

/-- Stepping a one-event scheduler below the expiry only advances the
timestamp. -/
lemma sched_step_single_miss (sys : System) (hs : sys.sched.heap_size = 1)
    (hne : u64 (sys.sched.current_timestamp + 4) ≠ (sys.sched.events 0).expiry_time) :
    libyagbe_sched_step sys =
      ({ sys with sched := { sys.sched with
          current_timestamp := u64 (sys.sched.current_timestamp + 4) } }, none) := by
  unfold libyagbe_sched_step
  simp [hs, find_min, hne]

/-- Stepping a one-event scheduler exactly onto the expiry pops the event,
dispatches its callback and returns it. -/
lemma sched_step_single_hit (sys sys1 : System) (hs : sys.sched.heap_size = 1)
    (heq : u64 (sys.sched.current_timestamp + 4) = (sys.sched.events 0).expiry_time)
    (hdef : sys1 = { sys with sched :=
        { current_timestamp := u64 (sys.sched.current_timestamp + 4),
          heap_size := 0,
          events := setEvent sys.sched.events 0 zeroEvent } }) :
    libyagbe_sched_step sys =
      ((match (sys.sched.events 0).cb_func with
        | CbFunc.handleTimerUpdate => handle_timer_update sys1
        | CbFunc.null => sys1), some (sys.sched.events 0)) := by
  subst hdef
  unfold libyagbe_sched_step extract_min
  simp [hs, find_min, heq]
  rw [heapify_top_bottom_empty]
  try rfl



lemma sched_run_add (sys : System) (m k : Nat) :
    sched_run sys (m + k) =
      ((sched_run (sched_run sys m).1 k).1,
        (sched_run sys m).2 ++ (sched_run (sched_run sys m).1 k).2) := by
  induction m generalizing sys with
  | zero => simp [sched_run]
  | succ m ih =>
    rw [Nat.succ_add]
    simp only [sched_run, ih]
    simp [List.append_assoc]

/-- Running a one-event scheduler for m quanta that all fall short of the
expiry fires nothing and only advances the timestamp. -/
lemma sched_run_single_miss_iter (m : Nat) : ∀ (sys : System) (t : Nat),
    sys.sched.heap_size = 1 → sys.sched.current_timestamp = t →
    t + 4 * m < (sys.sched.events 0).expiry_time →
    (sys.sched.events 0).expiry_time < 4294967296 →
    sched_run sys m =
      ({ sys with sched := { sys.sched with current_timestamp := t + 4 * m } }, []) := by
  induction m with
  | zero =>
    intro sys t h1 h2 _ _
    subst h2
    simp [sched_run]
  | succ m ih =>
    intro sys t h1 h2 hlt hb
    have ht4 : u64 (sys.sched.current_timestamp + 4) = t + 4 := by
      rw [h2]; exact u64_eq_of_lt (by omega)
    have hne : u64 (sys.sched.current_timestamp + 4) ≠ (sys.sched.events 0).expiry_time := by
      rw [ht4]; omega
    simp only [sched_run, sched_step_single_miss sys h1 hne, ht4]
    have hrec := ih { sys with sched := { sys.sched with current_timestamp := t + 4 } }
      (t + 4) h1 rfl
      (by show t + 4 + 4 * m < (sys.sched.events 0).expiry_time; omega)
      (by show (sys.sched.events 0).expiry_time < 4294967296; exact hb)
    rw [hrec]
    simp [show t + 4 + 4 * m = t + 4 * (m + 1) by ring]

/-- A one-event scheduler whose event expiry is not 0 mod 4 never fires while
the timestamp stays 0 mod 4. -/
lemma sched_run_single_mod_miss (m : Nat) : ∀ (sys : System),
    sys.sched.heap_size = 1 → sys.sched.current_timestamp % 4 = 0 →
    (sys.sched.events 0).expiry_time % 4 ≠ 0 →
    (sched_run sys m).2 = [] := by
  induction m with
  | zero => intro sys _ _ _; simp [sched_run]
  | succ m ih =>
    intro sys h1 h2 h3
    have hne : u64 (sys.sched.current_timestamp + 4) ≠ (sys.sched.events 0).expiry_time := by
      intro hcontra
      have : u64 (sys.sched.current_timestamp + 4) % 4 = 0 := by
        rw [u64_mod_four]; omega
      rw [hcontra] at this
      exact h3 this
    simp only [sched_run, sched_step_single_miss sys h1 hne]
    refine ih _ h1 ?_ h3
    simp [u64_mod_four]
    omega



lemma u32_mod_four (n : Nat) : u32 n % 4 = n % 4 := by
  unfold u32
  omega

/-- Running a one-event scheduler for exactly the number of quanta to its
expiry fires the event on the last step and none before, leaving the state
produced by dispatching the event's callback on the emptied scheduler. -/
lemma sched_run_single_fire_full (m : Nat) (sys sys1 : System) (t : Nat)
    (h1 : sys.sched.heap_size = 1) (h2 : sys.sched.current_timestamp = t)
    (hexp : (sys.sched.events 0).expiry_time = t + 4 * (m + 1))
    (hb : t + 4 * (m + 1) < 4294967296)
    (hdef : sys1 = { sys with sched :=
        { current_timestamp := u64 (t + 4 * m + 4), heap_size := 0,
          events := setEvent sys.sched.events 0 zeroEvent } }) :
    sched_run sys (m + 1) =
      ((match (sys.sched.events 0).cb_func with
        | CbFunc.handleTimerUpdate => handle_timer_update sys1
        | CbFunc.null => sys1), [sys.sched.events 0]) := by
  rw [sched_run_add sys m 1]
  have hiter := sched_run_single_miss_iter m sys t h1 h2
    (by rw [hexp]; omega) (by rw [hexp]; omega)
  rw [hiter]
  have hstep := sched_step_single_hit
    { sys with sched := { sys.sched with current_timestamp := t + 4 * m } }
    sys1
    h1
    (by show u64 (t + 4 * m + 4) = (sys.sched.events 0).expiry_time
        rw [hexp, u64_eq_of_lt (by omega)]; ring)
    hdef
  simp only [sched_run, hstep]
  cases (sys.sched.events 0).cb_func <;> simp

/-- The fired-event list form of sched_run_single_fire_full. -/
lemma sched_run_single_fire (m : Nat) (sys : System) (t : Nat)
    (h1 : sys.sched.heap_size = 1) (h2 : sys.sched.current_timestamp = t)
    (hexp : (sys.sched.events 0).expiry_time = t + 4 * (m + 1))
    (hb : t + 4 * (m + 1) < 4294967296) :
    (sched_run sys (m + 1)).2 = [sys.sched.events 0] := by
  rw [sched_run_single_fire_full m sys _ t h1 h2 hexp hb rfl]

/-- C1: an event inserted with relative expiry d (a positive multiple of 4)
at a 4-aligned timestamp t fires on exactly the (d/4)-th scheduler step and
on none of the earlier ones; an event whose absolute expiry is not congruent
to the 4-aligned step grid never fires. -/
theorem claim_C1_sched_exact_fire (sys : System) (t d : Nat) (cb : CbFunc)
    (hheap : sys.sched.heap_size = 0) (ht : sys.sched.current_timestamp = t)
    (ht4 : t % 4 = 0) (hd4 : d % 4 = 0) (hd0 : 0 < d) (hbound : t + d < 4294967296) :
    (∀ m, m < d / 4 →
      (sched_run { sys with sched := libyagbe_sched_insert sys.sched ⟨d, cb⟩ } m).2 = []) ∧
    (sched_run { sys with sched := libyagbe_sched_insert sys.sched ⟨d, cb⟩ } (d / 4)).2 =
      [⟨t + d, cb⟩] ∧
    (∀ d' cb' m, (t + d') % 4 ≠ 0 →
      (sched_run { sys with sched := libyagbe_sched_insert sys.sched ⟨d', cb'⟩ } m).2 = []) := by
  have hins := insert_empty sys.sched ⟨d, cb⟩ hheap
  have hexp : u32 (d + t) = t + d := by
    rw [Nat.add_comm d t]; exact u32_eq_of_lt (by omega)
  have h1 : ({ sys with sched := libyagbe_sched_insert sys.sched ⟨d, cb⟩ } : System).sched.heap_size = 1 := by
    rw [hins]
  have hev : ({ sys with sched := libyagbe_sched_insert sys.sched ⟨d, cb⟩ } : System).sched.events 0 =
      ⟨t + d, cb⟩ := by
    rw [hins]
    simp [setEvent]
    rw [ht]
    exact hexp
  have htime : ({ sys with sched := libyagbe_sched_insert sys.sched ⟨d, cb⟩ } : System).sched.current_timestamp = t := by
    rw [hins]; exact ht
  refine ⟨?_, ?_, ?_⟩
  · intro m hm
    have := sched_run_single_miss_iter m _ t h1 htime
      (by rw [hev]; show t + 4 * m < t + d; omega) (by rw [hev]; show t + d < 4294967296; omega)
    rw [this]
  · have hq : d / 4 = (d / 4 - 1) + 1 := by omega
    rw [hq]
    rw [sched_run_single_fire (d / 4 - 1) _ t h1 htime
      (by rw [hev]; show (⟨t + d, cb⟩ : SchedEvent).expiry_time = t + 4 * (d / 4 - 1 + 1); simp; omega)
      (by omega)]
    rw [hev]
  · intro d' cb' m hmod
    have hins' := insert_empty sys.sched ⟨d', cb'⟩ hheap
    refine sched_run_single_mod_miss m _ (by rw [hins']) ?_ ?_
    · rw [hins']; show sys.sched.current_timestamp % 4 = 0; omega
    · rw [hins']
      simp [setEvent]
      rw [ht, u32_mod_four]
      omega



lemma timing_le_1024 (k : Nat) : timing k ≤ 1024 := by
  unfold timing; split <;> omega

lemma timing_ge_16 (k : Nat) : 16 ≤ timing k := by
  unfold timing; split <;> omega

lemma timing_mod_four (k : Nat) : timing k % 4 = 0 := by
  unfold timing; split <;> omega

lemma newtac_enable_bit (a b : Nat) :
    ((a &&& 0xF8) ||| (b &&& 0x07)) &&& TAC_ENABLED = b &&& TAC_ENABLED := by
  unfold TAC_ENABLED
  rw [Nat.and_distrib_right, Nat.and_assoc, Nat.and_assoc,
    show (0xF8 &&& 4 : Nat) = 0 from rfl, show (0x07 &&& 4 : Nat) = 4 from rfl,
    Nat.and_zero, Nat.zero_or]

lemma or_lt_256 {a b : Nat} (ha : a < 256) (hb : b < 256) : a ||| b < 256 := by
  have h : a ||| b < 2 ^ 8 := Nat.or_lt_two_pow ha hb
  simpa using h

lemma u8_and_tac (x : Nat) : u8 x &&& TAC_ENABLED = x &&& TAC_ENABLED := by
  unfold u8 TAC_ENABLED
  rw [← Nat.and_pow_two_sub_one_eq_mod x 8, Nat.and_assoc,
    show ((2 ^ 8 - 1 : Nat) &&& 4) = 4 from rfl]




/-- C3: a TAC write that enables the timer from a disabled state schedules a
timer event with the configured period; after that period elapses (the write
itself advances one quantum, the remaining quanta are scheduler steps), the
timer callback increments TIMA by one, or, when TIMA is 0xFF, reloads it from
TMA and sets the timer bit of the interrupt flag in that same step; no
earlier step touches TIMA or the interrupt flag. -/
theorem claim_C3_timer_enable (sys : System) (t data : Nat)
    (hheap : sys.sched.heap_size = 0) (ht : sys.sched.current_timestamp = t)
    (ht4 : t % 4 = 0) (hb : t + 1028 < 4294967296)
    (hdis : sys.bus.timer.tac &&& TAC_ENABLED = 0) (hen : data &&& TAC_ENABLED ≠ 0)
    (htima : sys.bus.timer.tima < 256) (htma : sys.bus.timer.tma < 256)
    (hif : sys.bus.interrupt_flag < 256) :
    (libyagbe_bus_write_memory sys 0xFF07 data).sys.sched.heap_size = 1 ∧
    (libyagbe_bus_write_memory sys 0xFF07 data).sys.sched.events 0 =
      ⟨t + timing (data &&& 0x03), CbFunc.handleTimerUpdate⟩ ∧
    (∀ j, j < timing (data &&& 0x03) / 4 - 1 →
      (sched_run (libyagbe_bus_write_memory sys 0xFF07 data).sys j).2 = [] ∧
      (sched_run (libyagbe_bus_write_memory sys 0xFF07 data).sys j).1.bus.timer.tima =
        sys.bus.timer.tima ∧
      (sched_run (libyagbe_bus_write_memory sys 0xFF07 data).sys j).1.bus.interrupt_flag =
        sys.bus.interrupt_flag) ∧
    (sched_run (libyagbe_bus_write_memory sys 0xFF07 data).sys
        (timing (data &&& 0x03) / 4 - 1)).2 =
      [⟨t + timing (data &&& 0x03), CbFunc.handleTimerUpdate⟩] ∧
    (sys.bus.timer.tima ≠ 0xFF →
      (sched_run (libyagbe_bus_write_memory sys 0xFF07 data).sys
          (timing (data &&& 0x03) / 4 - 1)).1.bus.timer.tima = sys.bus.timer.tima + 1 ∧
      (sched_run (libyagbe_bus_write_memory sys 0xFF07 data).sys
          (timing (data &&& 0x03) / 4 - 1)).1.bus.interrupt_flag = sys.bus.interrupt_flag) ∧
    (sys.bus.timer.tima = 0xFF →
      (sched_run (libyagbe_bus_write_memory sys 0xFF07 data).sys
          (timing (data &&& 0x03) / 4 - 1)).1.bus.timer.tima = sys.bus.timer.tma ∧
      (sched_run (libyagbe_bus_write_memory sys 0xFF07 data).sys
          (timing (data &&& 0x03) / 4 - 1)).1.bus.interrupt_flag =
        sys.bus.interrupt_flag ||| FLAG_TIMER) := by
  have hkle := timing_le_1024 (data &&& 0x03)
  have hkge := timing_ge_16 (data &&& 0x03)
  have hkmod := timing_mod_four (data &&& 0x03)
  have hhtac : libyagbe_timer_handle_tac sys data =
      { sys with
        bus := { sys.bus with timer := { sys.bus.timer with
          tac := u8 ((sys.bus.timer.tac &&& 0xF8) ||| (data &&& 0x07)) } },
        sched := libyagbe_sched_insert sys.sched
          ⟨timing (data &&& 0x03), CbFunc.handleTimerUpdate⟩ } := by
    unfold libyagbe_timer_handle_tac
    simp [hdis, hen]
  have hins := insert_empty sys.sched
    ⟨timing (data &&& 0x03), CbFunc.handleTimerUpdate⟩ hheap
  have hexp : u32 (timing (data &&& 0x03) + sys.sched.current_timestamp) =
      t + timing (data &&& 0x03) := by
    rw [ht, Nat.add_comm]
    exact u32_eq_of_lt (by omega)
  have hw : (libyagbe_bus_write_memory sys 0xFF07 data).sys =
      { sys with
        bus := { sys.bus with timer := { sys.bus.timer with
          tac := u8 ((sys.bus.timer.tac &&& 0xF8) ||| (data &&& 0x07)) } },
        sched := { current_timestamp := t + 4,
                   heap_size := 1,
                   events := setEvent sys.sched.events 0
                     ⟨t + timing (data &&& 0x03), CbFunc.handleTimerUpdate⟩ } } := by
    have hw1 : libyagbe_bus_write_memory sys 0xFF07 data =
        ⟨(libyagbe_sched_step (libyagbe_timer_handle_tac sys data)).1, false⟩ := rfl
    rw [hw1, hhtac, hins]
    rw [sched_step_single_miss _ (by rfl)
      (by show u64 (sys.sched.current_timestamp + 4) ≠ _
          rw [ht, u64_eq_of_lt (by omega)]
          simp [setEvent]
          rw [u32_eq_of_lt (by omega)]
          omega)]
    simp [setEvent, ht, hexp, u64_eq_of_lt (show t + 4 < 18446744073709551616 by omega)]
    rw [show u32 (timing (data &&& 3) + t) = t + timing (data &&& 3) from by
      rw [Nat.add_comm]; exact u32_eq_of_lt (by omega)]
  rw [hw]
  set R : System := { sys with
      bus := { sys.bus with timer := { sys.bus.timer with
        tac := u8 ((sys.bus.timer.tac &&& 0xF8) ||| (data &&& 0x07)) } },
      sched := { current_timestamp := t + 4,
                 heap_size := 1,
                 events := setEvent sys.sched.events 0
                   ⟨t + timing (data &&& 0x03), CbFunc.handleTimerUpdate⟩ } } with hR
  have hcb : R.sched.events 0 = ⟨t + timing (data &&& 0x03), CbFunc.handleTimerUpdate⟩ := by
    rw [hR]; simp [setEvent]
  refine ⟨rfl, hcb, ?_, ?_, ?_, ?_⟩
  · intro j hj
    have hiter := sched_run_single_miss_iter j R (t + 4) rfl rfl
      (by rw [hcb]; show t + 4 + 4 * j < t + timing (data &&& 3); omega)
      (by rw [hcb]; show t + timing (data &&& 3) < 4294967296; omega)
    rw [hiter]
    exact ⟨rfl, rfl, rfl⟩
  all_goals (
    have hq : timing (data &&& 0x03) / 4 - 1 = (timing (data &&& 0x03) / 4 - 2) + 1 := by omega
    have hfire := sched_run_single_fire_full (timing (data &&& 0x03) / 4 - 2) R _ (t + 4)
      rfl rfl
      (by rw [hcb]
          show t + timing (data &&& 3) = t + 4 + 4 * (timing (data &&& 3) / 4 - 2 + 1)
          omega)
      (by omega) rfl
    rw [hcb] at hfire
    rw [hq, hfire])
  · intro hne
    unfold handle_timer_update
    simp only [hR]
    simp [setEvent, hne, u8_and_tac, newtac_enable_bit, hen,
      u8_eq_of_lt (show sys.bus.timer.tima + 1 < 256 by omega)]
  · intro hff
    unfold handle_timer_update
    simp only [hR]
    simp [setEvent, hff, u8_and_tac, newtac_enable_bit, hen, FLAG_TIMER,
      u8_eq_of_lt htma, u8_eq_of_lt (or_lt_256 hif (show (4 : Nat) < 256 by omega))]



theorem claim_C1_sched_exact_fire_witness :
    (base_sys fun _ => 0).sched.heap_size = 0 ∧
    (base_sys fun _ => 0).sched.current_timestamp = 0 ∧
    (0 : Nat) % 4 = 0 ∧ (8 : Nat) % 4 = 0 ∧ (0 : Nat) < 8 ∧
    (0 : Nat) + 8 < 4294967296 ∧
    ((∀ m, m < 8 / 4 →
      (sched_run { (base_sys fun _ => 0) with
        sched := libyagbe_sched_insert (base_sys fun _ => 0).sched
          ⟨8, CbFunc.null⟩ } m).2 = []) ∧
    (sched_run { (base_sys fun _ => 0) with
        sched := libyagbe_sched_insert (base_sys fun _ => 0).sched
          ⟨8, CbFunc.null⟩ } (8 / 4)).2 = [⟨0 + 8, CbFunc.null⟩] ∧
    (∀ d' cb' m, (0 + d') % 4 ≠ 0 →
      (sched_run { (base_sys fun _ => 0) with
        sched := libyagbe_sched_insert (base_sys fun _ => 0).sched
          ⟨d', cb'⟩ } m).2 = [])) :=
  ⟨rfl, rfl, by decide, by decide, by decide, by decide,
   claim_C1_sched_exact_fire (base_sys fun _ => 0) 0 8 CbFunc.null rfl rfl
     (by decide) (by decide) (by decide) (by decide)⟩



theorem claim_C3_timer_enable_witness :
    (base_sys fun _ => 0).sched.heap_size = 0 ∧
    (base_sys fun _ => 0).sched.current_timestamp = 0 ∧
    (0 : Nat) % 4 = 0 ∧ (0 : Nat) + 1028 < 4294967296 ∧
    (base_sys fun _ => 0).bus.timer.tac &&& TAC_ENABLED = 0 ∧
    (0x05 : Nat) &&& TAC_ENABLED ≠ 0 ∧
    (base_sys fun _ => 0).bus.timer.tima < 256 ∧
    (base_sys fun _ => 0).bus.timer.tma < 256 ∧
    (base_sys fun _ => 0).bus.interrupt_flag < 256 ∧
    ((libyagbe_bus_write_memory (base_sys fun _ => 0) 0xFF07 0x05).sys.sched.heap_size = 1 ∧
    (libyagbe_bus_write_memory (base_sys fun _ => 0) 0xFF07 0x05).sys.sched.events 0 =
      ⟨0 + timing (0x05 &&& 0x03), CbFunc.handleTimerUpdate⟩ ∧
    (∀ j, j < timing (0x05 &&& 0x03) / 4 - 1 →
      (sched_run (libyagbe_bus_write_memory (base_sys fun _ => 0) 0xFF07 0x05).sys j).2 = [] ∧
      (sched_run (libyagbe_bus_write_memory (base_sys fun _ => 0) 0xFF07
          0x05).sys j).1.bus.timer.tima = (base_sys fun _ => 0).bus.timer.tima ∧
      (sched_run (libyagbe_bus_write_memory (base_sys fun _ => 0) 0xFF07
          0x05).sys j).1.bus.interrupt_flag = (base_sys fun _ => 0).bus.interrupt_flag) ∧
    (sched_run (libyagbe_bus_write_memory (base_sys fun _ => 0) 0xFF07 0x05).sys
        (timing (0x05 &&& 0x03) / 4 - 1)).2 =
      [⟨0 + timing (0x05 &&& 0x03), CbFunc.handleTimerUpdate⟩] ∧
    ((base_sys fun _ => 0).bus.timer.tima ≠ 0xFF →
      (sched_run (libyagbe_bus_write_memory (base_sys fun _ => 0) 0xFF07 0x05).sys
          (timing (0x05 &&& 0x03) / 4 - 1)).1.bus.timer.tima =
        (base_sys fun _ => 0).bus.timer.tima + 1 ∧
      (sched_run (libyagbe_bus_write_memory (base_sys fun _ => 0) 0xFF07 0x05).sys
          (timing (0x05 &&& 0x03) / 4 - 1)).1.bus.interrupt_flag =
        (base_sys fun _ => 0).bus.interrupt_flag) ∧
    ((base_sys fun _ => 0).bus.timer.tima = 0xFF →
      (sched_run (libyagbe_bus_write_memory (base_sys fun _ => 0) 0xFF07 0x05).sys
          (timing (0x05 &&& 0x03) / 4 - 1)).1.bus.timer.tima =
        (base_sys fun _ => 0).bus.timer.tma ∧
      (sched_run (libyagbe_bus_write_memory (base_sys fun _ => 0) 0xFF07 0x05).sys
          (timing (0x05 &&& 0x03) / 4 - 1)).1.bus.interrupt_flag =
        (base_sys fun _ => 0).bus.interrupt_flag ||| FLAG_TIMER)) :=
  ⟨rfl, rfl, by decide, by decide, by decide, by decide, by decide, by decide, by decide,
   claim_C3_timer_enable (base_sys fun _ => 0) 0 0x05 rfl rfl (by decide) (by decide)
     (by decide) (by decide) (by decide) (by decide) (by decide)⟩

/-! ## Bus quantum and unmapped access (C6, C7) -/

lemma insert_timestamp (s : Sched) (e : SchedEvent) :
    (libyagbe_sched_insert s e).current_timestamp = s.current_timestamp := rfl

lemma handle_timer_update_timestamp (sys : System) :
    (handle_timer_update sys).sched.current_timestamp = sys.sched.current_timestamp := by
  unfold handle_timer_update
  dsimp only
  split_ifs <;> simp [insert_timestamp]

lemma sched_step_timestamp (sys : System) :
    (libyagbe_sched_step sys).1.sched.current_timestamp =
      u64 (sys.sched.current_timestamp + 4) := by
  unfold libyagbe_sched_step
  dsimp only
  split
  · rfl
  · split
    · split <;> simp [handle_timer_update_timestamp, extract_min]
    · rfl

lemma read_memory_sys (sys : System) (address : Nat) :
    (libyagbe_bus_read_memory sys address).sys = (libyagbe_sched_step sys).1 := by
  unfold libyagbe_bus_read_memory
  cases bus_read_route address <;> simp

lemma timer_handle_tac_timestamp (sys : System) (data : Nat) :
    (libyagbe_timer_handle_tac sys data).sched.current_timestamp =
      sys.sched.current_timestamp := by
  unfold libyagbe_timer_handle_tac
  dsimp only
  split_ifs <;> simp [insert_timestamp]

lemma bus_write_route_timestamp (address : Nat) (st : System → Nat → System)
    (hroute : bus_write_route address = some st) (sys : System) (data : Nat) :
    (st sys data).sched.current_timestamp = sys.sched.current_timestamp := by
  unfold bus_write_route at hroute
  split at hroute <;>
    (try split at hroute) <;>
    (try split at hroute) <;>
    (try split at hroute) <;>
    first
      | (cases hroute; simp [timer_handle_tac_timestamp])
      | simp at hroute

/-- C6: every bus read advances the scheduler by exactly one quantum as its
first action (the value is decoded against the already-stepped state), and
every bus write advances it by exactly one quantum after the store; no access
moves time by any other amount. -/
theorem claim_C6_bus_one_quantum (sys : System) (address data : Nat) :
    (libyagbe_bus_read_memory sys address).sys.sched.current_timestamp =
      u64 (sys.sched.current_timestamp + 4) ∧
    (libyagbe_bus_read_memory sys address).value =
      (match bus_read_route address with
       | some f => f (libyagbe_sched_step sys).1
       | none => 0xFF) ∧
    (libyagbe_bus_write_memory sys address data).sys.sched.current_timestamp =
      u64 (sys.sched.current_timestamp + 4) := by
  refine ⟨?_, ?_, ?_⟩
  · rw [read_memory_sys, sched_step_timestamp]
  · unfold libyagbe_bus_read_memory
    cases bus_read_route address <;> simp
  · unfold libyagbe_bus_write_memory
    cases hroute : bus_write_route address with
    | none => simp [sched_step_timestamp]
    | some st =>
      simp only []
      rw [sched_step_timestamp, bus_write_route_timestamp address st hroute]

/-- C7: accessing an unmapped address returns the 0xFF sentinel with the
anomaly logged, never aborts, changes nothing except performing the universal
one-quantum scheduler step (with an idle scheduler: only the timestamp), and
reading twice returns the same sentinel. -/
theorem claim_C7_unmapped_access (sys : System) (address data : Nat)
    (hu : bus_unmapped address = true) :
    (libyagbe_bus_read_memory sys address).value = 0xFF ∧
    (libyagbe_bus_read_memory sys address).logged = true ∧
    (libyagbe_bus_read_memory sys address).sys = (libyagbe_sched_step sys).1 ∧
    (libyagbe_bus_write_memory sys address data).sys = (libyagbe_sched_step sys).1 ∧
    (libyagbe_bus_write_memory sys address data).logged = true ∧
    (libyagbe_bus_read_memory (libyagbe_bus_read_memory sys address).sys address).value =
      0xFF ∧
    (sys.sched.heap_size = 0 →
      (libyagbe_bus_read_memory sys address).sys =
        { sys with sched := { sys.sched with
            current_timestamp := u64 (sys.sched.current_timestamp + 4) } }) := by
  unfold bus_unmapped at hu
  rw [Bool.and_eq_true, Option.isNone_iff_eq_none, Option.isNone_iff_eq_none] at hu
  obtain ⟨hr, hw⟩ := hu
  have hread : ∀ s : System, libyagbe_bus_read_memory s address =
      ⟨0xFF, (libyagbe_sched_step s).1, true⟩ := by
    intro s
    unfold libyagbe_bus_read_memory
    rw [hr]
  have hwrite : libyagbe_bus_write_memory sys address data =
      ⟨(libyagbe_sched_step sys).1, true⟩ := by
    unfold libyagbe_bus_write_memory
    rw [hw]
  refine ⟨by rw [hread], by rw [hread], by rw [hread], by rw [hwrite], by rw [hwrite],
    by rw [hread, hread], ?_⟩
  intro hheap
  rw [hread]
  rw [(sched_step_empty sys hheap)]



theorem claim_C7_unmapped_access_witness :
    bus_unmapped 0xA000 = true ∧
    ((libyagbe_bus_read_memory (base_sys fun _ => 0) 0xA000).value = 0xFF ∧
    (libyagbe_bus_read_memory (base_sys fun _ => 0) 0xA000).logged = true ∧
    (libyagbe_bus_read_memory (base_sys fun _ => 0) 0xA000).sys =
      (libyagbe_sched_step (base_sys fun _ => 0)).1 ∧
    (libyagbe_bus_write_memory (base_sys fun _ => 0) 0xA000 0x12).sys =
      (libyagbe_sched_step (base_sys fun _ => 0)).1 ∧
    (libyagbe_bus_write_memory (base_sys fun _ => 0) 0xA000 0x12).logged = true ∧
    (libyagbe_bus_read_memory
      (libyagbe_bus_read_memory (base_sys fun _ => 0) 0xA000).sys 0xA000).value = 0xFF ∧
    ((base_sys fun _ => 0).sched.heap_size = 0 →
      (libyagbe_bus_read_memory (base_sys fun _ => 0) 0xA000).sys =
        { (base_sys fun _ => 0) with
          sched := { (base_sys fun _ => 0).sched with
            current_timestamp :=
              u64 ((base_sys fun _ => 0).sched.current_timestamp + 4) } })) :=
  ⟨by decide,
   claim_C7_unmapped_access (base_sys fun _ => 0) 0xA000 0x12 (by decide)⟩

/-! ## Stack push/pop round trip (C8) -/

lemma handle_timer_update_wram (sys : System) :
    (handle_timer_update sys).bus.wram = sys.bus.wram := by
  unfold handle_timer_update
  dsimp only
  split_ifs <;> rfl

lemma sched_step_wram (sys : System) :
    (libyagbe_sched_step sys).1.bus.wram = sys.bus.wram := by
  unfold libyagbe_sched_step
  dsimp only
  split
  · rfl
  · split
    · split <;> simp [handle_timer_update_wram]
    · rfl

lemma wram_route_read (a : Nat) (h1 : 0xC000 ≤ a) (h2 : a ≤ 0xDFFF) :
    bus_read_route a = some (fun sys => u8 (sys.bus.wram (a - 0xC000))) := by
  have hs : a >>> 12 = a / 4096 := by
    rw [Nat.shiftRight_eq_div_pow]
  have : a / 4096 = 12 ∨ a / 4096 = 13 := by omega
  unfold bus_read_route
  rcases this with h | h <;> rw [hs, h]

lemma wram_route_write (a : Nat) (h1 : 0xC000 ≤ a) (h2 : a ≤ 0xDFFF) :
    bus_write_route a = some (fun sys data => { sys with
      bus := { sys.bus with
        wram := fun j => if j = a - 0xC000 then u8 data else sys.bus.wram j } }) := by
  have hs : a >>> 12 = a / 4096 := by
    rw [Nat.shiftRight_eq_div_pow]
  have : a / 4096 = 12 ∨ a / 4096 = 13 := by omega
  unfold bus_write_route
  rcases this with h | h <;> rw [hs, h]

lemma read_wram_value (sys : System) (a : Nat) (h1 : 0xC000 ≤ a) (h2 : a ≤ 0xDFFF) :
    (libyagbe_bus_read_memory sys a).value = u8 (sys.bus.wram (a - 0xC000)) := by
  unfold libyagbe_bus_read_memory
  rw [wram_route_read a h1 h2]
  simp [sched_step_wram]

lemma write_wram (sys : System) (a d : Nat) (h1 : 0xC000 ≤ a) (h2 : a ≤ 0xDFFF) :
    (libyagbe_bus_write_memory sys a d).sys.bus.wram =
      fun j => if j = a - 0xC000 then u8 d else sys.bus.wram j := by
  unfold libyagbe_bus_write_memory
  rw [wram_route_write a h1 h2]
  simp [sched_step_wram]



lemma u8_u8 (x : Nat) : u8 (u8 x) = u8 x := by
  unfold u8; omega

lemma stack_push_cpu (cpu : cpu_v1) (sys : System) (hi lo : Nat)
    (h1 : 0xC002 ≤ cpu.sp) (h2 : cpu.sp ≤ 0xE000) :
    (stack_push cpu sys hi lo).1 = { cpu with sp := cpu.sp - 2 } := by
  have d1 : dec16 cpu.sp = cpu.sp - 1 := by unfold dec16; omega
  have d2 : dec16 (cpu.sp - 1) = cpu.sp - 2 := by unfold dec16; omega
  simp [stack_push, d1, d2]

lemma stack_push_wram (cpu : cpu_v1) (sys : System) (hi lo : Nat)
    (h1 : 0xC002 ≤ cpu.sp) (h2 : cpu.sp ≤ 0xE000) :
    (stack_push cpu sys hi lo).2.bus.wram = fun j =>
      if j = cpu.sp - 2 - 0xC000 then u8 lo
      else if j = cpu.sp - 1 - 0xC000 then u8 hi
      else sys.bus.wram j := by
  have d1 : dec16 cpu.sp = cpu.sp - 1 := by unfold dec16; omega
  have d2 : dec16 (cpu.sp - 1) = cpu.sp - 2 := by unfold dec16; omega
  funext j
  show (libyagbe_bus_write_memory
      (libyagbe_bus_write_memory sys (dec16 cpu.sp) (u8 hi)).sys
      (dec16 (dec16 cpu.sp)) (u8 lo)).sys.bus.wram j = _
  rw [d1, d2]
  rw [write_wram _ _ _ (by omega) (by omega)]
  rw [show (libyagbe_bus_write_memory sys (cpu.sp - 1) (u8 hi)).sys.bus.wram =
      fun j => if j = cpu.sp - 1 - 0xC000 then u8 (u8 hi) else sys.bus.wram j
      from write_wram _ _ _ (by omega) (by omega)]
  by_cases hj : j = cpu.sp - 2 - 0xC000 <;> simp [hj, u8_u8]

lemma stack_pop_eq (cpu : cpu_v1) (sys : System)
    (h1 : 0xC000 ≤ cpu.sp) (h2 : cpu.sp + 1 ≤ 0xDFFF) :
    stack_pop cpu sys =
      (u16 ((u8 (sys.bus.wram (cpu.sp + 1 - 0xC000)) <<< 8) |||
          u8 (sys.bus.wram (cpu.sp - 0xC000))),
       { cpu with sp := cpu.sp + 2 },
       (stack_pop cpu sys).2.2) := by
  have e1 : u16 (cpu.sp + 1) = cpu.sp + 1 := by unfold u16; omega
  have e2 : u16 (cpu.sp + 1 + 1) = cpu.sp + 2 := by unfold u16; omega
  unfold stack_pop
  dsimp only
  rw [e1]
  rw [read_wram_value sys cpu.sp (by omega) (by omega)]
  rw [read_wram_value _ (cpu.sp + 1) (by omega) (by omega)]
  rw [show (libyagbe_bus_read_memory sys cpu.sp).sys.bus.wram = sys.bus.wram from by
    rw [read_memory_sys, sched_step_wram]]
  rw [show cpu.sp + 1 + 1 = cpu.sp + 2 from rfl] at e2
  rw [e2]

lemma stack_pop_wram (cpu : cpu_v1) (sys : System) :
    (stack_pop cpu sys).2.2.bus.wram = sys.bus.wram := by
  unfold stack_pop
  dsimp only
  rw [read_memory_sys, sched_step_wram, read_memory_sys, sched_step_wram]


lemma u16_pair (hi lo : Nat) (hh : hi < 256) (hl : lo < 256) :
    u16 ((hi <<< 8) ||| lo) = (hi <<< 8) ||| lo := by
  have h1 : hi <<< 8 < 2 ^ 16 := by rw [Nat.shiftLeft_eq]; omega
  have h2 : lo < 2 ^ 16 := by omega
  have h3 := Nat.or_lt_two_pow h1 h2
  unfold u16
  omega

lemma push1_eq (cpu : cpu_v1) (sys : System) (p : Nat × Nat) :
    push1 (cpu, sys) p = stack_push cpu sys p.1 p.2 := rfl

lemma push_list_nil (cpu : cpu_v1) (sys : System) : push_list cpu sys [] = (cpu, sys) := rfl

lemma push_list_cons (cpu : cpu_v1) (sys : System) (p : Nat × Nat) (rest : List (Nat × Nat)) :
    push_list cpu sys (p :: rest) =
      push_list (stack_push cpu sys p.1 p.2).1 (stack_push cpu sys p.1 p.2).2 rest := by
  unfold push_list
  rw [List.foldl_cons, push1_eq, Prod.mk.eta]

lemma pop_list_zero (cpu : cpu_v1) (sys : System) : pop_list cpu sys 0 = ([], cpu, sys) := rfl

lemma pop_list_snoc (cpu : cpu_v1) (sys : System) (n : Nat) :
    pop_list cpu sys (n + 1) =
      ((pop_list cpu sys n).1 ++
        [(stack_pop (pop_list cpu sys n).2.1 (pop_list cpu sys n).2.2).1],
       (stack_pop (pop_list cpu sys n).2.1 (pop_list cpu sys n).2.2).2) := by
  unfold pop_list
  rw [Function.iterate_succ_apply']
  rfl

lemma pop_list_wram (n : Nat) : ∀ (cpu : cpu_v1) (sys : System),
    (pop_list cpu sys n).2.2.bus.wram = sys.bus.wram := by
  induction n with
  | zero => intro cpu sys; rfl
  | succ n ih =>
    intro cpu sys
    rw [pop_list_snoc]
    show (stack_pop (pop_list cpu sys n).2.1 (pop_list cpu sys n).2.2).2.2.bus.wram = _
    rw [stack_pop_wram, ih]

lemma push_pop_rt (L : List (Nat × Nat)) : ∀ (cpu : cpu_v1) (sys : System),
    (∀ p ∈ L, p.1 < 256 ∧ p.2 < 256) →
    0xC000 + 2 * L.length ≤ cpu.sp → cpu.sp ≤ 0xE000 →
    (push_list cpu sys L).1 = { cpu with sp := cpu.sp - 2 * L.length } ∧
    (∀ j, cpu.sp - 0xC000 ≤ j → (push_list cpu sys L).2.bus.wram j = sys.bus.wram j) ∧
    (pop_list (push_list cpu sys L).1 (push_list cpu sys L).2 L.length).1 =
      (L.map fun p => (p.1 <<< 8) ||| p.2).reverse ∧
    (pop_list (push_list cpu sys L).1 (push_list cpu sys L).2 L.length).2.1 = cpu := by
  induction L with
  | nil =>
    intro cpu sys hb hlo hhi
    refine ⟨?_, fun j hj => by rw [push_list_nil], ?_, ?_⟩
    · rw [push_list_nil]
      simp only [List.length_nil, Nat.mul_zero, Nat.sub_zero]
    · rw [push_list_nil]
      rfl
    · rw [push_list_nil]
      rfl
  | cons p L ih =>
    intro cpu sys hb hlo hhi
    simp only [List.length_cons] at hlo
    have hc1 : (stack_push cpu sys p.1 p.2).1 = { cpu with sp := cpu.sp - 2 } :=
      stack_push_cpu cpu sys p.1 p.2 (by omega) hhi
    have hw1 : (stack_push cpu sys p.1 p.2).2.bus.wram = fun j =>
        if j = cpu.sp - 2 - 0xC000 then u8 p.2
        else if j = cpu.sp - 1 - 0xC000 then u8 p.1
        else sys.bus.wram j :=
      stack_push_wram cpu sys p.1 p.2 (by omega) hhi
    have hsp1 : (stack_push cpu sys p.1 p.2).1.sp = cpu.sp - 2 := by rw [hc1]
    obtain ⟨ih1, ih2, ih3, ih4⟩ :=
      ih (stack_push cpu sys p.1 p.2).1 (stack_push cpu sys p.1 p.2).2
        (fun q hq => hb q (List.mem_cons_of_mem p hq))
        (by rw [hsp1] ; try omega) (by rw [hsp1] ; try omega)
    refine ⟨?_, ?_, ?_, ?_⟩
    · have hsp : cpu.sp - 2 - 2 * L.length = cpu.sp - 2 * (p :: L).length := by
        simp only [List.length_cons]; omega
      rw [push_list_cons, ih1, hc1]
      dsimp only
      rw [hsp]
    · intro j hj
      rw [push_list_cons, ih2 j (by rw [hsp1] ; try omega), hw1]
      dsimp only
      rw [if_neg (by omega), if_neg (by omega)]
    · rw [push_list_cons]
      simp only [List.length_cons]
      rw [pop_list_snoc, ih3, ih4]
      rw [stack_pop_eq _ _ (by rw [hsp1] ; try omega) (by rw [hsp1] ; try omega)]
      rw [pop_list_wram]
      rw [show (stack_push cpu sys p.1 p.2).1.sp + 1 - 0xC000 = cpu.sp - 1 - 0xC000
        from by rw [hsp1] ; try omega]
      rw [show (stack_push cpu sys p.1 p.2).1.sp - 0xC000 = cpu.sp - 2 - 0xC000
        from by rw [hsp1] ; try omega]
      rw [ih2 (cpu.sp - 1 - 0xC000) (by rw [hsp1] ; try omega),
          ih2 (cpu.sp - 2 - 0xC000) (by rw [hsp1] ; try omega), hw1]
      dsimp only
      rw [if_neg (by omega), if_pos rfl, if_pos rfl]
      obtain ⟨hbh, hbl⟩ := hb p (List.mem_cons_self p L)
      rw [show u8 (u8 p.1) = p.1 from by unfold u8; omega]
      rw [show u8 (u8 p.2) = p.2 from by unfold u8; omega]
      rw [u16_pair p.1 p.2 hbh hbl]
      simp
    · rw [push_list_cons]
      simp only [List.length_cons]
      rw [pop_list_snoc, ih4]
      rw [stack_pop_eq _ _ (by rw [hsp1] ; try omega) (by rw [hsp1] ; try omega)]
      dsimp only
      rw [hc1]
      dsimp only
      rw [show cpu.sp - 2 + 2 = cpu.sp from by omega]



/-- C8: for any sequence of pushes of byte pairs followed by the same number of
pops, with SP inside writable WRAM, the popped values are the pushed pair
values in matching (reverse) order, the CPU state including SP is restored
exactly, each push transacts the high byte first at sp - 1 then the low byte at
sp - 2, and each pop reads the low byte first at sp and the high byte second at
sp + 1. -/
theorem claim_C8_push_pop_roundtrip (L : List (Nat × Nat)) (cpu c : cpu_v1)
    (sys s : System) (hi lo : Nat)
    (hb : ∀ p ∈ L, p.1 < 256 ∧ p.2 < 256)
    (hlo : 0xC000 + 2 * L.length ≤ cpu.sp) (hhi : cpu.sp ≤ 0xE000) :
    (pop_list (push_list cpu sys L).1 (push_list cpu sys L).2 L.length).1 =
      (L.map fun p => (p.1 <<< 8) ||| p.2).reverse ∧
    (pop_list (push_list cpu sys L).1 (push_list cpu sys L).2 L.length).2.1 = cpu ∧
    (pop_list (push_list cpu sys L).1 (push_list cpu sys L).2 L.length).2.1.sp = cpu.sp ∧
    (stack_push c s hi lo).2 =
      (libyagbe_bus_write_memory
        (libyagbe_bus_write_memory s (dec16 c.sp) (u8 hi)).sys
        (dec16 (dec16 c.sp)) (u8 lo)).sys ∧
    (stack_pop c s).1 =
      u16 (((libyagbe_bus_read_memory (libyagbe_bus_read_memory s c.sp).sys
          (u16 (c.sp + 1))).value <<< 8) |||
        (libyagbe_bus_read_memory s c.sp).value) := by
  obtain ⟨h1, h2, h3, h4⟩ := push_pop_rt L cpu sys hb hlo hhi
  exact ⟨h3, h4, by rw [h4], rfl, rfl⟩

theorem claim_C8_push_pop_roundtrip_witness :
    (∀ p ∈ [((0x12 : Nat), (0x34 : Nat)), (0xAB, 0xCD)], p.1 < 256 ∧ p.2 < 256) ∧
    0xC000 + 2 * List.length [((0x12 : Nat), (0x34 : Nat)), (0xAB, 0xCD)] ≤
      (cpu_v1.mk 1 2 3 4 0xE000 0x0100 0).sp ∧
    (cpu_v1.mk 1 2 3 4 0xE000 0x0100 0).sp ≤ 0xE000 ∧
    ((pop_list
        (push_list (cpu_v1.mk 1 2 3 4 0xE000 0x0100 0) (base_sys fun _ => 0)
          [((0x12 : Nat), (0x34 : Nat)), (0xAB, 0xCD)]).1
        (push_list (cpu_v1.mk 1 2 3 4 0xE000 0x0100 0) (base_sys fun _ => 0)
          [((0x12 : Nat), (0x34 : Nat)), (0xAB, 0xCD)]).2
        (List.length [((0x12 : Nat), (0x34 : Nat)), (0xAB, 0xCD)])).1 =
      (List.map (fun p => (p.1 <<< 8) ||| p.2)
        [((0x12 : Nat), (0x34 : Nat)), (0xAB, 0xCD)]).reverse ∧
    (pop_list
        (push_list (cpu_v1.mk 1 2 3 4 0xE000 0x0100 0) (base_sys fun _ => 0)
          [((0x12 : Nat), (0x34 : Nat)), (0xAB, 0xCD)]).1
        (push_list (cpu_v1.mk 1 2 3 4 0xE000 0x0100 0) (base_sys fun _ => 0)
          [((0x12 : Nat), (0x34 : Nat)), (0xAB, 0xCD)]).2
        (List.length [((0x12 : Nat), (0x34 : Nat)), (0xAB, 0xCD)])).2.1 =
      cpu_v1.mk 1 2 3 4 0xE000 0x0100 0 ∧
    (pop_list
        (push_list (cpu_v1.mk 1 2 3 4 0xE000 0x0100 0) (base_sys fun _ => 0)
          [((0x12 : Nat), (0x34 : Nat)), (0xAB, 0xCD)]).1
        (push_list (cpu_v1.mk 1 2 3 4 0xE000 0x0100 0) (base_sys fun _ => 0)
          [((0x12 : Nat), (0x34 : Nat)), (0xAB, 0xCD)]).2
        (List.length [((0x12 : Nat), (0x34 : Nat)), (0xAB, 0xCD)])).2.1.sp =
      (cpu_v1.mk 1 2 3 4 0xE000 0x0100 0).sp ∧
    (stack_push (cpu_v1.mk 1 2 3 4 0xE000 0x0100 0) (base_sys fun _ => 0) 0x56 0x78).2 =
      (libyagbe_bus_write_memory
        (libyagbe_bus_write_memory (base_sys fun _ => 0)
          (dec16 (cpu_v1.mk 1 2 3 4 0xE000 0x0100 0).sp) (u8 0x56)).sys
        (dec16 (dec16 (cpu_v1.mk 1 2 3 4 0xE000 0x0100 0).sp)) (u8 0x78)).sys ∧
    (stack_pop (cpu_v1.mk 1 2 3 4 0xE000 0x0100 0) (base_sys fun _ => 0)).1 =
      u16 (((libyagbe_bus_read_memory
          (libyagbe_bus_read_memory (base_sys fun _ => 0)
            (cpu_v1.mk 1 2 3 4 0xE000 0x0100 0).sp).sys
          (u16 ((cpu_v1.mk 1 2 3 4 0xE000 0x0100 0).sp + 1))).value <<< 8) |||
        (libyagbe_bus_read_memory (base_sys fun _ => 0)
          (cpu_v1.mk 1 2 3 4 0xE000 0x0100 0).sp).value)) := by
  refine ⟨by decide, by decide, by decide, ?_⟩
  exact claim_C8_push_pop_roundtrip
    [((0x12 : Nat), (0x34 : Nat)), (0xAB, 0xCD)]
    (cpu_v1.mk 1 2 3 4 0xE000 0x0100 0) (cpu_v1.mk 1 2 3 4 0xE000 0x0100 0)
    (base_sys fun _ => 0) (base_sys fun _ => 0) 0x56 0x78
    (by decide) (by decide) (by decide)

/-! ## Flag low-nibble invariant (C5) -/

lemma cpu_run_zero (cpu : libyagbe_cpu) (sys : System) : cpu_run cpu sys 0 = (cpu, sys) := rfl
lemma cpu_run_succ (cpu : libyagbe_cpu) (sys : System) (n : Nat) :
    cpu_run cpu sys (n + 1) =
      cpu_run (libyagbe_cpu_step cpu sys).2.1 (libyagbe_cpu_step cpu sys).2.2 n := rfl

lemma step_f_nib (cpu : libyagbe_cpu) (sys : System) (h : cpu.f &&& 0x0F = 0) :
    ((libyagbe_cpu_step cpu sys).2.1).f &&& 0x0F = 0 := by
  unfold libyagbe_cpu_step
  dsimp only
  exact cpu_execute_f_nib _ _ h

lemma run_f_nib (n : Nat) : ∀ (cpu : libyagbe_cpu) (sys : System),
    cpu.f &&& 0x0F = 0 → ((cpu_run cpu sys n).1).f &&& 0x0F = 0 := by
  induction n with
  | zero => intro cpu sys h; rw [cpu_run_zero]; exact h
  | succ n ih =>
    intro cpu sys h
    rw [cpu_run_succ]
    exact ih _ _ (step_f_nib cpu sys h)

/-- C5: every CPU state reached from libyagbe_cpu_reset by running any number
of instructions has a zero low nibble in F, and one instruction dispatch from
any state whose F has a zero low nibble preserves that property (in particular
every 8-bit ALU instruction leaves the low nibble of F exactly 0). -/
theorem claim_C5_f_low_nibble (cpu0 cpu : libyagbe_cpu) (sys sys2 : System) (n : Nat)
    (h : cpu.f &&& 0x0F = 0) :
    ((cpu_run (libyagbe_cpu_reset cpu0) sys n).1).f &&& 0x0F = 0 ∧
    ((cpu_execute cpu sys2).2.1).f &&& 0x0F = 0 := by
  constructor
  · apply run_f_nib
    show (0xB0 : Nat) &&& 0x0F = 0
    decide
  · exact cpu_execute_f_nib cpu sys2 h

theorem claim_C5_f_low_nibble_witness :
    (libyagbe_cpu.mk 0 0 0 0 0x30 0 0 0x55 0x0100 0xFFFE 0).f &&& 0x0F = 0 ∧
    (((cpu_run (libyagbe_cpu_reset (libyagbe_cpu.mk 0 0 0 0 0 0 0 0 0 0 0))
        (base_sys cart_inc_a) 3).1).f &&& 0x0F = 0 ∧
      ((cpu_execute (libyagbe_cpu.mk 0 0 0 0 0x30 0 0 0x55 0x0100 0xFFFE 0)
        (base_sys cart_inc_a)).2.1).f &&& 0x0F = 0) :=
  ⟨by decide,
   claim_C5_f_low_nibble (libyagbe_cpu.mk 0 0 0 0 0 0 0 0 0 0 0)
     (libyagbe_cpu.mk 0 0 0 0 0x30 0 0 0x55 0x0100 0xFFFE 0)
     (base_sys cart_inc_a) (base_sys cart_inc_a) 3 (by decide)⟩

/-! ## INC A flags (C4) -/

/-- C4: one step of the current CPU with opcode 0x3C (INC A) at PC = 0x0100 and
A = 0xFF, F = 0x10 (carry set).  The cycle count is 4, A wraps to 0x00, the
Zero flag is set, the Subtract flag is clear and the Carry flag is unchanged,
but the Half-Carry flag (bit 5, 0x20) comes out clear: the final F is 0x90,
not the 0xB0 the specification requires, because this alu_inc never writes the
half-carry flag. -/
theorem claim_C4_inc_a_missing_half_carry :
    (libyagbe_cpu_step
      { libyagbe_cpu_reset ⟨0,0,0,0,0,0,0,0,0,0,0⟩ with a := 0xFF, f := 0x10 }
      (base_sys cart_inc_a)).1 = 4 ∧
    (libyagbe_cpu_step
      { libyagbe_cpu_reset ⟨0,0,0,0,0,0,0,0,0,0,0⟩ with a := 0xFF, f := 0x10 }
      (base_sys cart_inc_a)).2.1.a = 0x00 ∧
    (libyagbe_cpu_step
      { libyagbe_cpu_reset ⟨0,0,0,0,0,0,0,0,0,0,0⟩ with a := 0xFF, f := 0x10 }
      (base_sys cart_inc_a)).2.1.f = 0x90 ∧
    (libyagbe_cpu_step
      { libyagbe_cpu_reset ⟨0,0,0,0,0,0,0,0,0,0,0⟩ with a := 0xFF, f := 0x10 }
      (base_sys cart_inc_a)).2.1.f &&& 0x20 = 0 ∧
    (libyagbe_cpu_step
      { libyagbe_cpu_reset ⟨0,0,0,0,0,0,0,0,0,0,0⟩ with a := 0xFF, f := 0x10 }
      (base_sys cart_inc_a)).2.1.pc = 0x0101 :=
  ⟨rfl, rfl, rfl, rfl, rfl⟩

/-! ## Heap root-min violation (C2) -/

lemma c2_sched_eval :
    c2_sched.heap_size = 3 ∧ c2_sched.current_timestamp = 0 ∧
    c2_sched.events 0 = ⟨4, CbFunc.null⟩ ∧
    c2_sched.events 1 = ⟨8, CbFunc.null⟩ ∧
    c2_sched.events 2 = ⟨12, CbFunc.null⟩ ∧
    c2_sched.events 3 = zeroEvent := by
  refine ⟨rfl, rfl, ?_, ?_, ?_, ?_⟩ <;>
    simp [c2_sched, libyagbe_sched_insert, libyagbe_sched_reset, heapify_bottom_top,
      get_parent_node, setEvent, swapEvents, u32, zeroEvent]


lemma c2_step1 :
    (libyagbe_sched_step c2_sys).2 = some ⟨4, CbFunc.null⟩ ∧
    (libyagbe_sched_step c2_sys).1.sched.heap_size = 2 ∧
    (libyagbe_sched_step c2_sys).1.sched.current_timestamp = 4 ∧
    (libyagbe_sched_step c2_sys).1.sched.events 0 = ⟨8, CbFunc.null⟩ ∧
    (libyagbe_sched_step c2_sys).1.sched.events 1 = zeroEvent ∧
    (libyagbe_sched_step c2_sys).1.sched.events 3 = ⟨12, CbFunc.null⟩ := by
  refine ⟨?_, ?_, ?_, ?_, ?_, ?_⟩ <;>
    simp [c2_sys, c2_sched, libyagbe_sched_insert, libyagbe_sched_reset, base_sys,
      libyagbe_sched_step, find_min, extract_min, heapify_top_bottom, heapify_bottom_top,
      smallest_node, get_parent_node, get_left_child_of_node, get_right_child_of_node,
      setEvent, swapEvents, u32, u64, zeroEvent]


/-- C2: a below-capacity insert/extract sequence that breaks the root-min
invariant.  Three events with expiries 4, 8, 12 are inserted at timestamp 0;
after the 4- and 8-events fire, the pending 12-event has been swapped out to
slot 3, outside the live heap (heap_size = 1), and the root slot holds a
zeroed event with expiry 0 rather than the minimum pending expiry 12; the
third step lands on timestamp 12 yet fires nothing, so the 12-event is lost.
The cause is the first guard of heapify_top_bottom (sched.c line 63), which
tests smallest_node < heap_size where the corresponding min_heapify of the
older scheduler tests left_node < heap_size, letting a stale slot beyond the
heap take part in the comparison and be swapped into the live heap. -/
theorem claim_C2_root_min_violation :
    c2_sched.heap_size = 3 ∧ MAX_EVENTS = 10 ∧
    (sched_run c2_sys 2).2 = [⟨4, CbFunc.null⟩, ⟨8, CbFunc.null⟩] ∧
    (sched_run c2_sys 2).1.sched.heap_size = 1 ∧
    ((sched_run c2_sys 2).1.sched.events 0).expiry_time = 0 ∧
    (sched_run c2_sys 2).1.sched.events 3 = ⟨12, CbFunc.null⟩ ∧
    (sched_run c2_sys 3).2 = [⟨4, CbFunc.null⟩, ⟨8, CbFunc.null⟩] ∧
    (sched_run c2_sys 3).1.sched.current_timestamp = 12 := by
  refine ⟨rfl, rfl, ?_, ?_, ?_, ?_, ?_, ?_⟩ <;>
    simp [c2_sys, c2_sched, libyagbe_sched_insert, libyagbe_sched_reset, base_sys,
      sched_run, libyagbe_sched_step, find_min, extract_min, heapify_top_bottom,
      heapify_bottom_top, smallest_node, get_parent_node, get_left_child_of_node,
      get_right_child_of_node, setEvent, swapEvents, u32, u64, zeroEvent]

/-! ## Insert capacity assert (C9) -/

lemma heapify_bottom_top_frame (index : Nat) : ∀ (ev : Nat → SchedEvent) (j : Nat),
    index < j → heapify_bottom_top ev index j = ev j := by
  induction index using Nat.strong_induction_on with
  | _ index ih =>
    intro ev j hj
    rw [heapify_bottom_top]
    split
    · rename_i hguard
      have hpos : 0 < index := by
        by_contra h0
        have : index = 0 := by omega
        subst this
        simp [get_parent_node] at hguard
      have hparent : get_parent_node index < index := by
        unfold get_parent_node
        have := Nat.div_le_self (index - 1) 2
        omega
      rw [ih (get_parent_node index) hparent _ j (by omega)]
      unfold swapEvents
      rw [if_neg (by omega), if_neg (by omega)]
    · rfl


/-- C9 counterexample: after nine successful inserts from a reset scheduler
the heap holds 9 events, strictly fewer than the capacity MAX_EVENTS = 10,
yet the assert condition of libyagbe_sched_insert (heap_size != MAX_EVENTS - 1)
already fires: the assert triggers one slot short of capacity, so the stated
precondition (fewer pending events than the capacity constant) does not
prevent the assertion failure. -/
theorem claim_C9_counterexample :
    c9_full.heap_size = 9 ∧ c9_full.heap_size < MAX_EVENTS ∧
    sched_insert_asserts c9_full := by
  refine ⟨rfl, by decide, ?_⟩
  unfold sched_insert_asserts
  rfl

/-- C9 amended: the assert condition of libyagbe_sched_insert is
heap_size = MAX_EVENTS - 1, so it aborts one insert short of the array
capacity; under the tighter precondition heap_size < MAX_EVENTS - 1 the
assertion does not fire, the insert grows the heap by one (still at most
MAX_EVENTS - 1 slots used, within the fixed array), and no slot above the
old heap_size is written. -/
theorem claim_C9_insert_capacity (s : Sched) (e : SchedEvent)
    (hlt : s.heap_size < MAX_EVENTS - 1) :
    ¬ sched_insert_asserts s ∧
    (sched_insert_asserts s ↔ s.heap_size = MAX_EVENTS - 1) ∧
    (libyagbe_sched_insert s e).heap_size = s.heap_size + 1 ∧
    (libyagbe_sched_insert s e).heap_size ≤ MAX_EVENTS - 1 ∧
    (∀ j, s.heap_size < j → (libyagbe_sched_insert s e).events j = s.events j) := by
  unfold MAX_EVENTS at hlt
  refine ⟨?_, Iff.rfl, rfl, ?_, ?_⟩
  · unfold sched_insert_asserts MAX_EVENTS
    omega
  · show s.heap_size + 1 ≤ MAX_EVENTS - 1
    unfold MAX_EVENTS
    omega
  · intro j hj
    unfold libyagbe_sched_insert
    dsimp only
    rw [heapify_bottom_top_frame s.heap_size _ j hj]
    unfold setEvent
    rw [if_neg (by omega)]

theorem claim_C9_insert_capacity_witness :
    libyagbe_sched_reset.heap_size < MAX_EVENTS - 1 ∧
    (¬ sched_insert_asserts libyagbe_sched_reset ∧
      (sched_insert_asserts libyagbe_sched_reset ↔
        libyagbe_sched_reset.heap_size = MAX_EVENTS - 1) ∧
      (libyagbe_sched_insert libyagbe_sched_reset ⟨4, CbFunc.null⟩).heap_size =
        libyagbe_sched_reset.heap_size + 1 ∧
      (libyagbe_sched_insert libyagbe_sched_reset ⟨4, CbFunc.null⟩).heap_size ≤
        MAX_EVENTS - 1 ∧
      (∀ j, libyagbe_sched_reset.heap_size < j →
        (libyagbe_sched_insert libyagbe_sched_reset ⟨4, CbFunc.null⟩).events j =
          libyagbe_sched_reset.events j)) :=
  ⟨by decide,
   claim_C9_insert_capacity libyagbe_sched_reset ⟨4, CbFunc.null⟩ (by decide)⟩

/-! ## The two CPU implementations on INC A (C10) -/

/-- C10 counterexample: from corresponding states (A = 0xFF, F = 0x10,
PC = 0x0100, opcode INC A), the union-register implementation produces
F = 0xB0 (half-carry set) while the split-register implementation produces
F = 0x90 (half-carry clear), so the two steps are not observationally
equivalent even though both agree on A and PC. -/
theorem claim_C10_counterexample :
    (libyagbe_cpu_step_v1 (cpu_v1.mk 0xFF10 0 0 0 0xFFFE 0x0100 0)
        (base_sys cart_inc_a)).map
      (fun r => (hi_byte r.1.af, lo_byte r.1.af, r.1.pc)) =
      some (0x00, 0xB0, 0x0101) ∧
    (libyagbe_cpu_step
      { libyagbe_cpu_reset ⟨0,0,0,0,0,0,0,0,0,0,0⟩ with a := 0xFF, f := 0x10 }
      (base_sys cart_inc_a)).2.1.a = 0x00 ∧
    (libyagbe_cpu_step
      { libyagbe_cpu_reset ⟨0,0,0,0,0,0,0,0,0,0,0⟩ with a := 0xFF, f := 0x10 }
      (base_sys cart_inc_a)).2.1.f = 0x90 ∧
    (libyagbe_cpu_step
      { libyagbe_cpu_reset ⟨0,0,0,0,0,0,0,0,0,0,0⟩ with a := 0xFF, f := 0x10 }
      (base_sys cart_inc_a)).2.1.pc = 0x0101 ∧
    (0xB0 : Nat) ≠ 0x90 :=
  ⟨rfl, rfl, rfl, rfl, by decide⟩


lemma testBit_255 (i : Nat) : Nat.testBit 255 i = decide (i < 8) :=
  Nat.testBit_two_pow_sub_one 8 i

lemma testBit_mod256 (x i : Nat) : (x % 256).testBit i = (decide (i < 8) && x.testBit i) :=
  Nat.testBit_mod_two_pow x 8 i

lemma testBit_65280 (i : Nat) : Nat.testBit 65280 i = (decide (8 ≤ i) && decide (i < 16)) := by
  rw [show (65280 : Nat) = 255 <<< 8 from rfl, Nat.testBit_shiftLeft, testBit_255]
  by_cases h1 : 8 ≤ i <;> by_cases h2 : i < 16 <;> simp [h1, h2] <;> omega

lemma hi_byte_set_hi (v x : Nat) : hi_byte (set_hi_byte v x) = u8 x := by
  unfold hi_byte set_hi_byte u8
  apply Nat.eq_of_testBit_eq
  intro i
  simp only [Nat.testBit_and, Nat.testBit_or, Nat.testBit_shiftRight, Nat.testBit_shiftLeft,
    testBit_255, testBit_mod256]
  by_cases hi8 : i < 8 <;>
    simp [hi8, show (8 : Nat) ≤ 8 + i by omega, show ¬ (8 + i < 8) by omega,
      Nat.add_sub_cancel_left]

lemma lo_byte_set_hi (v x : Nat) : lo_byte (set_hi_byte v x) = lo_byte v := by
  unfold lo_byte set_hi_byte u8
  apply Nat.eq_of_testBit_eq
  intro i
  simp only [Nat.testBit_and, Nat.testBit_or, Nat.testBit_shiftRight, Nat.testBit_shiftLeft,
    testBit_255, testBit_mod256]
  by_cases hi8 : i < 8
  · simp [hi8, show ¬ (8 : Nat) ≤ i by omega]
  · simp [hi8]

lemma lo_byte_set_lo (v x : Nat) : lo_byte (set_lo_byte v x) = u8 x := by
  unfold lo_byte set_lo_byte u8
  apply Nat.eq_of_testBit_eq
  intro i
  simp only [Nat.testBit_and, Nat.testBit_or, testBit_255, testBit_mod256, testBit_65280]
  by_cases hi8 : i < 8
  · simp [hi8, show ¬ (8 : Nat) ≤ i by omega]
  · simp [hi8]

lemma or_or_swap (x a b : Nat) : (x ||| a) ||| b = (x ||| b) ||| a := by
  rw [Nat.or_assoc, Nat.or_comm a b, ← Nat.or_assoc]



lemma u8_idem (x : Nat) : u8 (u8 x) = u8 x := by
  unfold u8; omega

lemma or_lt_256_of_lt (a b : Nat) (ha : a < 256) (hb : b < 256) : a ||| b < 256 := by
  have h1 : a < 2 ^ 8 := by omega
  have h2 : b < 2 ^ 8 := by omega
  have h3 := Nat.or_lt_two_pow h1 h2
  omega

lemma step_v1_inc_a (cpu : cpu_v1) (sys : System)
    (hop : (libyagbe_bus_read_memory sys cpu.pc).value = 0x3C) :
    libyagbe_cpu_step_v1 cpu sys =
      some ({ cpu with
          af := set_hi_byte
            (set_lo_byte cpu.af
              (SET_BIT_IF
                (SET_BIT_IF (lo_byte cpu.af &&& 0xBF) FLAG_H
                  (u8 (hi_byte cpu.af) &&& 0x0F == 0xF))
                FLAG_Z (u8 (u8 (hi_byte cpu.af) + 1) == 0)))
            (u8 (u8 (hi_byte cpu.af) + 1)),
          pc := u16 (cpu.pc + 1), instruction := 0x3C },
        (libyagbe_bus_read_memory sys cpu.pc).sys) := by
  unfold libyagbe_cpu_step_v1 read_imm8_v1 alu_inc_v1 set_zero_flag set_half_carry_flag
  dsimp only
  rw [hop]

lemma step_v2_inc_a (cpu : libyagbe_cpu) (sys : System)
    (hop : (libyagbe_bus_read_memory sys cpu.pc).value = 0x3C) :
    libyagbe_cpu_step cpu sys =
      (4, { cpu with
          a := u8 (u8 cpu.a + 1),
          f := if u8 (u8 cpu.a + 1) = 0 then (cpu.f &&& 0xBF) ||| FLAG_Z
            else (cpu.f &&& 0xBF) &&& 0x7F,
          pc := u16 (cpu.pc + 1), instruction := 0x3C },
        (libyagbe_bus_read_memory sys cpu.pc).sys) := by
  unfold libyagbe_cpu_step cpu_execute alu_inc
  dsimp only
  rw [hop]

/-- C10 amended: on the INC A opcode the two step implementations agree on A,
PC, SP and the resulting system state, and their flag registers agree on every
bit except half-carry: the union-register F equals the split-register F with
the half-carry bit forced to the value computed from the low nibble of A
(set when that nibble is 0xF, cleared otherwise), which the split-register
alu_inc never writes. -/
theorem claim_C10_inc_a_correspondence (cpu1 : cpu_v1) (cpu2 : libyagbe_cpu)
    (sys : System)
    (ha : cpu2.a = hi_byte cpu1.af) (hf : cpu2.f = lo_byte cpu1.af)
    (hpc : cpu2.pc = cpu1.pc) (hsp : cpu2.sp = cpu1.sp)
    (hop : (libyagbe_bus_read_memory sys cpu1.pc).value = 0x3C) :
    (libyagbe_cpu_step_v1 cpu1 sys).map (fun r => hi_byte r.1.af) =
      some (libyagbe_cpu_step cpu2 sys).2.1.a ∧
    (libyagbe_cpu_step_v1 cpu1 sys).map (fun r => r.1.pc) =
      some (libyagbe_cpu_step cpu2 sys).2.1.pc ∧
    (libyagbe_cpu_step_v1 cpu1 sys).map (fun r => r.1.sp) =
      some (libyagbe_cpu_step cpu2 sys).2.1.sp ∧
    (libyagbe_cpu_step_v1 cpu1 sys).map (fun r => r.2) =
      some (libyagbe_cpu_step cpu2 sys).2.2 ∧
    (libyagbe_cpu_step_v1 cpu1 sys).map (fun r => lo_byte r.1.af) =
      some (if u8 (hi_byte cpu1.af) &&& 0x0F = 0xF
        then (libyagbe_cpu_step cpu2 sys).2.1.f ||| FLAG_H
        else (libyagbe_cpu_step cpu2 sys).2.1.f &&& 0xDF) := by
  have hop2 : (libyagbe_bus_read_memory sys cpu2.pc).value = 0x3C := by
    rw [hpc]; exact hop
  rw [step_v1_inc_a cpu1 sys hop, step_v2_inc_a cpu2 sys hop2]
  have hylt : lo_byte cpu1.af &&& 0xBF < 256 := by
    have h1 : lo_byte cpu1.af &&& 0xBF ≤ 0xBF := Nat.and_le_right
    omega
  refine ⟨?_, ?_, ?_, ?_, ?_⟩
  · simp only [Option.map]
    rw [hi_byte_set_hi, u8_idem, ha]
  · simp only [Option.map]
    rw [hpc]
  · simp only [Option.map]
    rw [hsp]
  · simp only [Option.map]
    rw [hpc]
  · simp only [Option.map]
    rw [lo_byte_set_hi, lo_byte_set_lo]
    unfold SET_BIT_IF
    rw [hf, ha]
    simp only [beq_iff_eq, FLAG_Z, FLAG_H,
      show (0xFF : Nat) ^^^ 0x80 = 0x7F from by decide,
      show (0xFF : Nat) ^^^ 0x20 = 0xDF from by decide]
    split_ifs with hcz hch hch
    · unfold u8
      rw [Nat.mod_eq_of_lt (or_lt_256_of_lt _ _ (or_lt_256_of_lt _ _ hylt (by omega)) (by omega))]
      exact congrArg some (or_or_swap _ _ _)
    · unfold u8
      have hlt : lo_byte cpu1.af &&& 0xBF &&& 0xDF < 256 := by
        have := Nat.and_le_right (n := lo_byte cpu1.af &&& 0xBF) (m := 0xDF)
        omega
      rw [Nat.mod_eq_of_lt (or_lt_256_of_lt _ _ hlt (by omega))]
      rw [Nat.and_distrib_right]
      rw [show (0x80 : Nat) &&& 0xDF = 0x80 from by decide]
    · unfold u8
      have hlt : (lo_byte cpu1.af &&& 0xBF ||| 0x20) &&& 0x7F ≤ 0x7F := Nat.and_le_right
      rw [Nat.mod_eq_of_lt (by omega)]
      rw [Nat.and_distrib_right]
      rw [show (0x20 : Nat) &&& 0x7F = 0x20 from by decide]
    · unfold u8
      have hlt : lo_byte cpu1.af &&& 0xBF &&& 0xDF &&& 0x7F ≤ 0x7F := Nat.and_le_right
      rw [Nat.mod_eq_of_lt (by omega)]
      simp only [Nat.and_assoc]
      rw [show (0xBF : Nat) &&& (0xDF &&& 0x7F) = 0x1F from by decide]
      rw [show (0xBF : Nat) &&& (0x7F &&& 0xDF) = 0x1F from by decide]



theorem claim_C10_inc_a_correspondence_witness :
    (libyagbe_cpu.mk 0 0 0 0 0x10 0 0 0xFF 0x0100 0xFFFE 0).a =
      hi_byte (cpu_v1.mk 0xFF10 0 0 0 0xFFFE 0x0100 0).af ∧
    (libyagbe_cpu.mk 0 0 0 0 0x10 0 0 0xFF 0x0100 0xFFFE 0).f =
      lo_byte (cpu_v1.mk 0xFF10 0 0 0 0xFFFE 0x0100 0).af ∧
    (libyagbe_cpu.mk 0 0 0 0 0x10 0 0 0xFF 0x0100 0xFFFE 0).pc =
      (cpu_v1.mk 0xFF10 0 0 0 0xFFFE 0x0100 0).pc ∧
    (libyagbe_cpu.mk 0 0 0 0 0x10 0 0 0xFF 0x0100 0xFFFE 0).sp =
      (cpu_v1.mk 0xFF10 0 0 0 0xFFFE 0x0100 0).sp ∧
    (libyagbe_bus_read_memory (base_sys cart_inc_a)
      (cpu_v1.mk 0xFF10 0 0 0 0xFFFE 0x0100 0).pc).value = 0x3C ∧
    ((libyagbe_cpu_step_v1 (cpu_v1.mk 0xFF10 0 0 0 0xFFFE 0x0100 0)
        (base_sys cart_inc_a)).map (fun r => hi_byte r.1.af) =
      some (libyagbe_cpu_step (libyagbe_cpu.mk 0 0 0 0 0x10 0 0 0xFF 0x0100 0xFFFE 0)
        (base_sys cart_inc_a)).2.1.a ∧
    (libyagbe_cpu_step_v1 (cpu_v1.mk 0xFF10 0 0 0 0xFFFE 0x0100 0)
        (base_sys cart_inc_a)).map (fun r => r.1.pc) =
      some (libyagbe_cpu_step (libyagbe_cpu.mk 0 0 0 0 0x10 0 0 0xFF 0x0100 0xFFFE 0)
        (base_sys cart_inc_a)).2.1.pc ∧
    (libyagbe_cpu_step_v1 (cpu_v1.mk 0xFF10 0 0 0 0xFFFE 0x0100 0)
        (base_sys cart_inc_a)).map (fun r => r.1.sp) =
      some (libyagbe_cpu_step (libyagbe_cpu.mk 0 0 0 0 0x10 0 0 0xFF 0x0100 0xFFFE 0)
        (base_sys cart_inc_a)).2.1.sp ∧
    (libyagbe_cpu_step_v1 (cpu_v1.mk 0xFF10 0 0 0 0xFFFE 0x0100 0)
        (base_sys cart_inc_a)).map (fun r => r.2) =
      some (libyagbe_cpu_step (libyagbe_cpu.mk 0 0 0 0 0x10 0 0 0xFF 0x0100 0xFFFE 0)
        (base_sys cart_inc_a)).2.2 ∧
    (libyagbe_cpu_step_v1 (cpu_v1.mk 0xFF10 0 0 0 0xFFFE 0x0100 0)
        (base_sys cart_inc_a)).map (fun r => lo_byte r.1.af) =
      some (if u8 (hi_byte (cpu_v1.mk 0xFF10 0 0 0 0xFFFE 0x0100 0).af) &&& 0x0F = 0xF
        then (libyagbe_cpu_step (libyagbe_cpu.mk 0 0 0 0 0x10 0 0 0xFF 0x0100 0xFFFE 0)
          (base_sys cart_inc_a)).2.1.f ||| FLAG_H
        else (libyagbe_cpu_step (libyagbe_cpu.mk 0 0 0 0 0x10 0 0 0xFF 0x0100 0xFFFE 0)
          (base_sys cart_inc_a)).2.1.f &&& 0xDF)) :=
  ⟨by decide, by decide, by decide, by decide, rfl,
   claim_C10_inc_a_correspondence
     (cpu_v1.mk 0xFF10 0 0 0 0xFFFE 0x0100 0)
     (libyagbe_cpu.mk 0 0 0 0 0x10 0 0 0xFF 0x0100 0xFFFE 0)
     (base_sys cart_inc_a) (by decide) (by decide) (by decide) (by decide) rfl⟩

end Yagbe
